import Mathlib

/-!
Verification development for the story-helper repository.

Shallow embedding of the core logic of the repository:
* the 6-stage analysis pipeline of `src/services/storyPersistence.ts`
  (third document in that file: `runPipelineStage`, `runFullPipeline`,
  `calculateScoreFromIssues` and the mapping helpers), over the core types
  of `src/types/storyTypes.ts` (unnamed/part_007);
* the `llm-proxy` edge function (both repository snapshots found in
  `supabase/functions/llm-proxy/index.ts`): `validateResponse` and the
  retry-once request handling;
* the wizard state reducers (`src/components/StoryWizard.tsx`, second
  document, and the `StoryContext` provider of unnamed/part_005 over
  `src/types/storyState.ts`) with the human decision operations;
* the heuristic user-story parser of unnamed/part_008 (`parseUserStory`,
  `calculateCompletenessScore`), including a small executable backtracking
  regex matcher mirroring the JavaScript regex semantics used there.

External effects are made explicit: the reasoning-engine call is an oracle
parameter, `generateId`/`createTimestamp`/`Date.now` are injected as
arguments, and progress callbacks are modelled by returning the trace of
invocations the code would perform.
-/

-- ============================================================
-- Shared JavaScript-semantics helpers
-- ============================================================

/-- JavaScript whitespace class (`\s`, `String.prototype.trim`): ASCII
whitespace plus no-break space.  Exotic Unicode space separators are not
modelled; none occur in the repository's inputs or patterns. -/
def jsWhitespace (c : Char) : Bool :=
  c == ' ' || c == '\t' || c == '\n' || c == '\r' || c == '\x0b' || c == '\x0c' || c == ' '

/-- JavaScript `String.prototype.trim` on a character list. -/
def jsTrimList (cs : List Char) : List Char :=
  (((cs.dropWhile jsWhitespace).reverse).dropWhile jsWhitespace).reverse

/-- JavaScript `String.prototype.trim`. -/
def jsTrim (s : String) : String :=
  String.mk (jsTrimList s.data)

/-- JavaScript `String.prototype.toLowerCase`, restricted to ASCII case
folding (the only case-insensitive comparisons performed by the code are on
ASCII keyword strings). -/
def jsToLower (s : String) : String :=
  String.map Char.toLower s

/-- JavaScript `a || b` for two optional strings, where both `undefined`
and the empty string are falsy. -/
def jsOrStr (a : Option String) (b : Option String) : Option String :=
  match a with
  | some s => if s = "" then b else some s
  | none => b

-- ============================================================
-- Core types (src/types/storyTypes.ts, unnamed/part_007)
-- ============================================================

namespace StoryTypes

/-- `IssueSeverity` of storyTypes.ts. -/
inductive IssueSeverity where
  | critical | major | minor | info
  deriving DecidableEq, Repr

/-- `IssueCategory` of storyTypes.ts (closed category enum). -/
inductive IssueCategory where
  | ambiguity | missing_role | missing_goal | missing_benefit
  | vague_language | too_broad_scope | solution_bias | persona_unclear
  | business_value_gap | not_testable | inconsistency | missing_context
  | technical_debt | other
  deriving DecidableEq, Repr

/-- `AffectedSection` of storyTypes.ts. -/
inductive AffectedSection where
  | role | goal | benefit | constraint | acceptance_criteria | overall
  deriving DecidableEq, Repr

/-- The `high | medium | low` confidence enum used across storyTypes.ts. -/
inductive Confidence where
  | high | medium | low
  deriving DecidableEq, Repr

/-- `ImplicitAssumption` of storyTypes.ts. -/
structure ImplicitAssumption where
  id : String
  text : String
  source : String
  confidence : Confidence
  deriving DecidableEq, Repr

/-- `StructuredStoryModel` of storyTypes.ts (the `parseWarnings` field is
never written by the modelled code and is omitted). -/
structure StructuredStoryModel where
  role : String
  goal : String
  benefit : String
  constraints : List String
  existingAcceptanceCriteria : List String
  implicitAssumptions : List ImplicitAssumption
  parseConfidence : Confidence
  deriving DecidableEq, Repr

/-- `QualityIssue` of storyTypes.ts.  The optional audit fields
`contextCitations`, `userResponse` and `resolvedAt`, which no modelled code
path ever writes, are omitted. -/
structure QualityIssue where
  id : String
  category : IssueCategory
  severity : IssueSeverity
  affectedSection : AffectedSection
  textReference : String
  reasoning : String
  clarificationQuestion : Option String
  suggestedAction : Option String
  confidence : Confidence
  isRelevant : Option Bool
  userNote : Option String
  deriving DecidableEq, Repr

/-- `PipelineStage` of storyTypes.ts. -/
inductive PipelineStage where
  | ambiguity_analysis | structure_check | quality_check
  | acceptance_criteria | business_value | solution_bias
  deriving DecidableEq, Repr

/-- `PIPELINE_STAGES` of storyTypes.ts, in its source order (note that
`acceptance_criteria` is the fourth element there). -/
def PIPELINE_STAGES : List PipelineStage :=
  [.ambiguity_analysis, .structure_check, .quality_check,
   .acceptance_criteria, .business_value, .solution_bias]

/-- The literal string value of each `PipelineStage` union member (used by
template interpolation such as the pipeline summary). -/
def stageName : PipelineStage → String
  | .ambiguity_analysis => "ambiguity_analysis"
  | .structure_check => "structure_check"
  | .quality_check => "quality_check"
  | .acceptance_criteria => "acceptance_criteria"
  | .business_value => "business_value"
  | .solution_bias => "solution_bias"

/-- `ContextSnippet` of storyTypes.ts (the optional `position` metadata
object is omitted; only `text` and `documentName` are read by the code
modelled here). -/
structure ContextSnippet where
  id : String
  text : String
  documentId : Option String
  documentName : Option String
  relevanceScore : Option Int
  addedAt : String
  deriving DecidableEq, Repr

end StoryTypes

-- ============================================================
-- Pipeline API service
-- (third document of src/services/storyPersistence.ts)
-- ============================================================

namespace LLMProxyApi

open StoryTypes

/-- One raw issue object of a stage response (`BaseStageResponse.issues`
element).  An absent `id` is modelled as the empty string, matching the
defensive `issue.id || generateId()` in the source. -/
structure RawIssue where
  id : String
  category : String
  severity : String
  textReference : Option String
  reasoning : String
  clarificationQuestion : Option String
  suggestedAction : Option String
  confidence : Option String
  affectedSection : Option String
  investCriterion : Option String
  alternativeFormulation : Option String
  suggestedBenefit : Option String
  deriving DecidableEq, Repr

/-- The `structuredModel` object of a `StructureResponse` (`role`, `goal`
and `benefit` may be `null`). -/
structure RawStructuredModel where
  role : Option String
  goal : Option String
  benefit : Option String
  constraints : Option (List String)
  parseConfidence : Option String
  deriving DecidableEq, Repr

/-- The stage response object delivered by the llm-proxy: the
`BaseStageResponse` fields plus the stage-specific extras the client reads
(`structuredModel` of structure_check, `overallScore` of quality_check).
The extras it never reads (`valueAssessment`, `hasSolutionBias`) are
omitted. -/
structure RawStageResponse where
  issues : List RawIssue
  summary : Option String
  structuredModel : Option RawStructuredModel
  overallScore : Option Int
  deriving DecidableEq, Repr

/-- `mapSeverity` of the pipeline service. -/
def mapSeverity (severity : String) : IssueSeverity :=
  match jsToLower severity with
  | "critical" | "high" => .critical
  | "major" | "medium" => .major
  | "minor" | "low" => .minor
  | _ => .info

/-- `mapCategory` of the pipeline service (`categoryMap` lookup, falling
back to `other`). -/
def mapCategory (category : String) : IssueCategory :=
  match category with
  | "ambiguity" => .ambiguity
  | "clarity" => .ambiguity
  | "missing_role" => .missing_role
  | "missing_goal" => .missing_goal
  | "missing_benefit" => .missing_benefit
  | "completeness" => .missing_context
  | "vague_language" => .vague_language
  | "too_broad_scope" => .too_broad_scope
  | "scope" => .too_broad_scope
  | "solution_bias" => .solution_bias
  | "persona_unclear" => .persona_unclear
  | "business_value_gap" => .business_value_gap
  | "not_testable" => .not_testable
  | "testability" => .not_testable
  | "inconsistency" => .inconsistency
  | "consistency" => .inconsistency
  | "missing_context" => .missing_context
  | "technical_debt" => .technical_debt
  | _ => .other

/-- `mapAffectedSection` of the pipeline service. -/
def mapAffectedSection (s : Option String) : AffectedSection :=
  match s with
  | none => .overall
  | some t =>
    match t with
    | "role" => .role
    | "goal" => .goal
    | "benefit" => .benefit
    | "constraint" => .constraint
    | "acceptance_criteria" => .acceptance_criteria
    | _ => .overall

/-- `mapConfidence` of the pipeline service. -/
def mapConfidence (conf : Option String) : Confidence :=
  match conf with
  | none => .medium
  | some c =>
    let lc := jsToLower c
    if lc = "high" then .high else if lc = "low" then .low else .medium

/-- `mapIssueFromResponse` of the pipeline service.  `fresh` stands for the
`generateId()` call used when the raw issue carries no id; the `stage`
parameter is kept (unused) as in the source. -/
def mapIssueFromResponse (fresh : String) (issue : RawIssue) (_stage : PipelineStage) :
    QualityIssue :=
  { id := if issue.id = "" then fresh else issue.id
    category := mapCategory issue.category
    severity := mapSeverity issue.severity
    affectedSection := mapAffectedSection issue.affectedSection
    textReference := issue.textReference.getD ""
    reasoning := issue.reasoning
    clarificationQuestion := issue.clarificationQuestion
    suggestedAction :=
      jsOrStr (jsOrStr issue.suggestedAction issue.alternativeFormulation) issue.suggestedBenefit
    confidence := mapConfidence issue.confidence
    isRelevant := some false
    userNote := some "" }

/-- `buildContextString` of the pipeline service. -/
def buildContextString (snippets : List ContextSnippet) (additionalContext : Option String) :
    Option String :=
  let snippetParts : List String :=
    if snippets.isEmpty then []
    else
      [String.intercalate "\n\n" (snippets.map fun s =>
        match s.documentName with
        | some dn => "[" ++ dn ++ "] " ++ s.text
        | none => s.text)]
  let extraParts : List String :=
    match additionalContext with
    | some ac => if jsTrim ac = "" then [] else [jsTrim ac]
    | none => []
  let parts := snippetParts ++ extraParts
  if parts.isEmpty then none else some (String.intercalate "\n\n---\n\n" parts)

/-- Projection of the structured story sent with a request (the
`structuredStory` request field built in `runPipelineStage`). -/
structure StructuredStoryProjection where
  role : String
  goal : String
  benefit : String
  constraints : List String
  deriving DecidableEq, Repr

/-- Projection of one finding into the accumulated `previousResults`
payload built by `runFullPipeline`. -/
structure AccumIssue where
  id : String
  category : IssueCategory
  severity : IssueSeverity
  textReference : String
  reasoning : String
  deriving DecidableEq, Repr

/-- One `accumulatedResults[stage]` entry built by `runFullPipeline`. -/
structure AccumEntry where
  issues : List AccumIssue
  summary : Option String
  deriving DecidableEq, Repr

/-- The request assembled by `runPipelineStage` for the llm-proxy call.
`promptVersion` and `runtimeConfig` are forwarded verbatim and play no role
in any claim, so they are not modelled. -/
structure StageRequest where
  operation : PipelineStage
  storyText : String
  structuredStory : Option StructuredStoryProjection
  context : Option String
  previousResults : List (PipelineStage × AccumEntry)

/-- The external engine boundary: `callLLMProxy` (the network call, the
`success` unwrapping and the thrown `Error` on failure) together with the
`Date.now()` duration measurement of `runPipelineStage`.  An `.error`
models a thrown exception carrying the error message; an `.ok` carries the
parsed response and the elapsed milliseconds. -/
def LLMProxyOracle : Type :=
  StageRequest → Except String (RawStageResponse × Nat)

/-- `PipelineStageResultData` of the pipeline service. -/
structure PipelineStageResultData where
  stage : PipelineStage
  issues : List QualityIssue
  structuredModel : Option StructuredStoryModel
  overallScore : Option Int
  summary : Option String
  duration : Nat
  deriving DecidableEq, Repr

/-- `FullPipelineResult` of the pipeline service. -/
structure FullPipelineResult where
  stages : List PipelineStageResultData
  allIssues : List QualityIssue
  structuredModel : Option StructuredStoryModel
  overallScore : Int
  summary : String
  deriving DecidableEq, Repr

/-- The response-mapping portion of `runPipelineStage`: maps the raw issues,
attaches the returned `structuredModel` only for `structure_check` and the
returned `overallScore` only for `quality_check`.  `genId` injects the
`generateId()` calls used for issues without an id (indexed by the issue's
position within the response). -/
def mkStageResult (genId : Nat → String) (stage : PipelineStage)
    (response : RawStageResponse) (duration : Nat) : PipelineStageResultData :=
  { stage := stage
    issues := response.issues.enum.map fun p =>
      mapIssueFromResponse (genId p.1) p.2 stage
    structuredModel :=
      if stage = .structure_check then
        match response.structuredModel with
        | some sm =>
          some { role := sm.role.getD ""
                 goal := sm.goal.getD ""
                 benefit := sm.benefit.getD ""
                 constraints := sm.constraints.getD []
                 existingAcceptanceCriteria := []
                 implicitAssumptions := []
                 parseConfidence := mapConfidence sm.parseConfidence }
        | none => none
      else none
    overallScore := if stage = .quality_check then response.overallScore else none
    summary := response.summary
    duration := duration }

/-- `runPipelineStage` of the pipeline service: one llm-proxy call plus the
stage-specific mapping of the response. -/
def runPipelineStage (proxy : LLMProxyOracle) (genId : Nat → String)
    (stage : PipelineStage) (storyText : String)
    (structuredStory : Option StructuredStoryModel)
    (contextSnippets : List ContextSnippet)
    (previousResults : List (PipelineStage × AccumEntry)) :
    Except String PipelineStageResultData :=
  match proxy
      { operation := stage
        storyText := storyText
        structuredStory := structuredStory.map fun st =>
          { role := st.role, goal := st.goal, benefit := st.benefit,
            constraints := st.constraints }
        context := buildContextString contextSnippets none
        previousResults := previousResults } with
  | .error e => .error e
  | .ok (response, duration) => .ok (mkStageResult genId stage response duration)

/-- `calculateScoreFromIssues` of the pipeline service. -/
def calculateScoreFromIssues (issues : List QualityIssue) : Int :=
  if issues.isEmpty then 100
  else
    let score := issues.foldl
      (fun score issue =>
        match issue.severity with
        | .critical => score - 20
        | .major => score - 10
        | .minor => score - 5
        | .info => score - 2)
      (100 : Int)
    max 0 score

/-- The record `runFullPipeline` pushes for a stage whose invocation threw
(the catch block of the stage loop): zero issues, zero duration, and the
error message behind the fixed prefix. -/
def failedStageRecord (stage : PipelineStage) (e : String) : PipelineStageResultData :=
  { stage := stage
    issues := []
    structuredModel := none
    overallScore := none
    summary := some ("Stage fehlgeschlagen: " ++ e)
    duration := 0 }

/-- The mutable loop state of `runFullPipeline` (the local variables
`stages`, `allIssues`, `currentStructuredModel`, `overallScore`,
`accumulatedResults`), instrumented with two observation traces:
`invokedStages` records each `runPipelineStage` invocation in call order,
and `callbackTrace` records each `onStageComplete(stage, result)`
invocation the code performs, in order.  The callback is a pure observer in
the source (its return value is ignored); the traces let theorems speak
about invocation order and callback behaviour without altering the
computation. -/
structure RunState where
  stages : List PipelineStageResultData
  allIssues : List QualityIssue
  currentStructuredModel : Option StructuredStoryModel
  overallScore : Int
  accumulatedResults : List (PipelineStage × AccumEntry)
  invokedStages : List PipelineStage
  callbackTrace : List (PipelineStage × PipelineStageResultData)
  deriving Repr

/-- One iteration of the `for (const stage of PIPELINE_STAGES)` loop of
`runFullPipeline`: the try-block on success of `runPipelineStage`, the
catch-block (which appends the failure record
`{stage, issues: [], duration: 0, summary: "Stage fehlgeschlagen: " + msg}`
and continues) on a thrown error. -/
def runStageStep (proxy : LLMProxyOracle) (genId : PipelineStage → Nat → String)
    (storyText : String) (contextSnippets : List ContextSnippet)
    (st : RunState) (stage : PipelineStage) : RunState :=
  let callResult := runPipelineStage proxy (genId stage) stage storyText
    st.currentStructuredModel contextSnippets st.accumulatedResults
  let st := { st with invokedStages := st.invokedStages ++ [stage] }
  match callResult with
  | .ok result =>
    { st with
      stages := st.stages ++ [result]
      allIssues := st.allIssues ++ result.issues
      currentStructuredModel :=
        match result.structuredModel with
        | some m => some m
        | none => st.currentStructuredModel
      overallScore :=
        match result.overallScore with
        | some v => v
        | none => st.overallScore
      accumulatedResults := st.accumulatedResults ++
        [(stage,
          { issues := result.issues.map fun i =>
              { id := i.id, category := i.category, severity := i.severity,
                textReference := i.textReference, reasoning := i.reasoning }
            summary := result.summary })]
      callbackTrace := st.callbackTrace ++ [(stage, result)] }
  | .error e =>
    { st with stages := st.stages ++ [failedStageRecord stage e] }

/-- The stage loop of `runFullPipeline`. -/
def runStages (proxy : LLMProxyOracle) (genId : PipelineStage → Nat → String)
    (storyText : String) (contextSnippets : List ContextSnippet) :
    List PipelineStage → RunState → RunState
  | [], st => st
  | stage :: rest, st =>
    runStages proxy genId storyText contextSnippets rest
      (runStageStep proxy genId storyText contextSnippets st stage)

/-- The initial loop state of `runFullPipeline`. -/
def initRunState (structuredStory : Option StructuredStoryModel) : RunState :=
  { stages := []
    allIssues := []
    currentStructuredModel := structuredStory
    overallScore := 0
    accumulatedResults := []
    invokedStages := []
    callbackTrace := [] }

/-- The value of a full pipeline run together with its observation
traces. -/
structure FullPipelineRun where
  result : FullPipelineResult
  invokedStages : List PipelineStage
  callbackTrace : List (PipelineStage × PipelineStageResultData)
  deriving Repr

/-- `runFullPipeline` of the pipeline service.  Runs the stages of
`PIPELINE_STAGES` sequentially over the llm-proxy oracle, then assembles
the result: the markdown-ish summary over the truthy per-stage summaries,
`structuredModel` as the running model, and
`overallScore || calculateScoreFromIssues(allIssues)` — where `0` is falsy
in JavaScript, hence the explicit `≠ 0` test. -/
def runFullPipeline (proxy : LLMProxyOracle) (genId : PipelineStage → Nat → String)
    (storyText : String) (structuredStory : Option StructuredStoryModel)
    (contextSnippets : List ContextSnippet) : FullPipelineRun :=
  let final := runStages proxy genId storyText contextSnippets
    PIPELINE_STAGES (initRunState structuredStory)
  let summary := String.intercalate "\n\n"
    ((final.stages.filter fun s =>
        match s.summary with
        | some t => t != ""
        | none => false).map fun s =>
      "**" ++ stageName s.stage ++ "**: " ++ s.summary.getD "")
  { result :=
      { stages := final.stages
        allIssues := final.allIssues
        structuredModel := final.currentStructuredModel
        overallScore :=
          if final.overallScore ≠ 0 then final.overallScore
          else calculateScoreFromIssues final.allIssues
        summary := summary }
    invokedStages := final.invokedStages
    callbackTrace := final.callbackTrace }

end LLMProxyApi

-- ============================================================
-- llm-proxy edge function
-- (supabase/functions/llm-proxy/index.ts, both snapshots)
-- ============================================================

/-- JSON values, the data the proxy validates.  Numbers are modelled as
integers (no validated contract involves fractional values). -/
inductive Json where
  | null
  | bool (b : Bool)
  | num (n : Int)
  | str (s : String)
  | arr (elems : List Json)
  | obj (fields : List (String × Json))

/-- JavaScript property access `obj.key` on a parsed JSON value: a field of
an object, `undefined` (`none`) otherwise. -/
def jsGet : Json → String → Option Json
  | .obj fields, key => fields.lookup key
  | _, _ => none

/-- JavaScript `Array.isArray` applied to a possibly-undefined value. -/
def jsIsArray : Option Json → Bool
  | some (.arr _) => true
  | _ => false

/-- JavaScript `typeof v === 'number'` applied to a possibly-undefined
value. -/
def jsIsNumber : Option Json → Bool
  | some (.num _) => true
  | _ => false

/-- `Array.isArray(v) && v.length > 0` applied to a possibly-undefined
value. -/
def jsIsNonemptyArray : Option Json → Bool
  | some (.arr xs) => xs.length > 0
  | _ => false

-- The pipeline snapshot of the llm-proxy: the second document of
-- supabase/functions/llm-proxy/index.ts, the one with per-stage operations.
namespace ProxyPipeline

/-- The `Operation` union of the pipeline proxy. -/
inductive Operation where
  | ambiguity_analysis | structure_check | quality_check
  | acceptance_criteria | business_value | solution_bias
  | rewrite | analyze | full_pipeline
  deriving DecidableEq, Repr

/-- `validateResponse` of the pipeline proxy.  The guard
`if (!data || typeof data !== 'object') return false` passes exactly the
object-typed truthy JSON values, i.e. objects and arrays (`typeof null`
is `'object'` but `null` is falsy).  The `default` arm of the switch is
unreachable for the closed `Operation` union. -/
def validateResponse (operation : Operation) (data : Json) : Bool :=
  match data with
  | .obj _ | .arr _ =>
    match operation with
    | .ambiguity_analysis | .structure_check | .quality_check
    | .business_value | .solution_bias => jsIsArray (jsGet data "issues")
    | .acceptance_criteria => jsIsArray (jsGet data "criteria")
    | .rewrite => jsIsNonemptyArray (jsGet data "candidates")
    | .analyze => jsIsArray (jsGet data "issues") && jsIsNumber (jsGet data "score")
    | .full_pipeline =>
      -- `typeof obj.stages === 'object'`: objects, arrays, and JSON null
      match jsGet data "stages" with
      | some (.obj _) | some (.arr _) | some .null => true
      | _ => false
  | _ => false

/-- The literal instruction suffix appended to the user prompt for the
single retry of the pipeline proxy. -/
def RETRY_SUFFIX : String :=
  "\n\nWICHTIG: Antworte NUR mit validem JSON gemäß dem Ausgabeformat."

/-- Outcome of the proxy request handling after the attempt/retry block:
the 200 success response, the 500 response after a thrown retry
(`Failed to get valid response after retry`), or the 500 response for a
still-invalid shape (`Invalid response structure`, carrying the raw
response). -/
inductive ServeOutcome where
  | success (data : Json)
  | retryTransportFailure
  | invalidStructure (rawResponse : Json)

/-- The engine boundary `callLLM` (transport, markdown-fence stripping and
`JSON.parse`), as a function of the user prompt.  The system prompt, API
key and runtime config are identical across both attempts of one request
and are therefore not part of the oracle's argument.  `.error` models any
exception thrown inside `callLLM`. -/
def LLMOracle : Type := String → Except String Json

/-- The retry block of the pipeline proxy `serve` handler (the
`if (!isValid)` block): one further `callLLM` with the suffixed prompt;
a thrown retry yields the 500 retry-failure response, an invalid second
shape yields the 500 invalid-structure response. -/
def retryAttempt (llm : LLMOracle) (operation : Operation) (userPrompt : String) :
    ServeOutcome :=
  match llm (userPrompt ++ RETRY_SUFFIX) with
  | .ok result2 =>
    if validateResponse operation result2 then .success result2
    else .invalidStructure result2
  | .error _ => .retryTransportFailure

/-- The attempt/retry core of the pipeline proxy `serve` handler (the code
from the first `callLLM` to the final response), paired with the list of
user prompts sent to the engine, in call order. -/
def serveAttempts (llm : LLMOracle) (operation : Operation) (userPrompt : String) :
    ServeOutcome × List String :=
  match llm userPrompt with
  | .ok result =>
    if validateResponse operation result then (.success result, [userPrompt])
    else (retryAttempt llm operation userPrompt, [userPrompt, userPrompt ++ RETRY_SUFFIX])
  | .error _ =>
    (retryAttempt llm operation userPrompt, [userPrompt, userPrompt ++ RETRY_SUFFIX])

end ProxyPipeline

-- The legacy snapshot of the llm-proxy: the first document of
-- supabase/functions/llm-proxy/index.ts, without per-stage operations.
namespace ProxyLegacy

/-- The `Operation` union of the legacy proxy. -/
inductive Operation where
  | analyze | rewrite | acceptance_criteria
  deriving DecidableEq, Repr

/-- `validateResponse` of the legacy proxy. -/
def validateResponse (operation : Operation) (data : Json) : Bool :=
  match data with
  | .obj _ | .arr _ =>
    match operation with
    | .analyze => jsIsArray (jsGet data "issues") && jsIsNumber (jsGet data "score")
    | .rewrite => jsIsNonemptyArray (jsGet data "candidates")
    | .acceptance_criteria => jsIsNonemptyArray (jsGet data "criteria")
  | _ => false

end ProxyLegacy

-- ============================================================
-- Wizard state, simple variant
-- (src/types/storyState.ts with the StoryContext provider of
-- unnamed/part_005)
-- ============================================================

namespace StoryContextProvider

/-- `IssueCategory` of storyState.ts (this snapshot's own, smaller category
enum). -/
inductive IssueCategory where
  | missing_role | missing_goal | missing_benefit | vague_language
  | too_long | too_short | missing_context | technical_debt
  | not_testable | other
  deriving DecidableEq, Repr

/-- The `'error' | 'warning' | 'info'` severity union of storyState.ts. -/
inductive IssueSeverity where
  | error | warning | info
  deriving DecidableEq, Repr

/-- `StructuredStory` of storyState.ts. -/
structure StructuredStory where
  role : String
  goal : String
  benefit : String
  constraints : Option (List String)
  deriving DecidableEq, Repr

/-- The `'file' | 'url' | 'text'` union of `ContextDocument.type`. -/
inductive DocumentType where
  | file | url | text
  deriving DecidableEq, Repr

/-- `ContextDocument` of storyState.ts. -/
structure ContextDocument where
  id : String
  name : String
  content : String
  type : DocumentType
  addedAt : String
  deriving DecidableEq, Repr

/-- `ContextSnippet` of storyState.ts. -/
structure ContextSnippet where
  id : String
  text : String
  source : Option String
  addedAt : String
  deriving DecidableEq, Repr

/-- `AnalysisIssue` of storyState.ts. -/
structure AnalysisIssue where
  id : String
  category : IssueCategory
  textReference : String
  reasoning : String
  clarificationQuestion : Option String
  severity : IssueSeverity
  isRelevant : Option Bool
  userNote : Option String
  deriving DecidableEq, Repr

/-- `Partial<AnalysisIssue>` as dispatched by `UPDATE_ANALYSIS_ISSUE`
(restricted to the human-curation fields the application ever updates; a
present field overwrites the issue's field). -/
structure PartialAnalysisIssue where
  isRelevant : Option Bool
  userNote : Option String
  deriving DecidableEq, Repr

/-- `RewriteCandidate` of storyState.ts. -/
structure RewriteCandidate where
  id : String
  suggestedText : String
  explanation : String
  createdAt : String
  deriving DecidableEq, Repr

/-- `AcceptanceCriterion` of storyState.ts.  The Given/When/Then fields
`when` and `then` are Lean keywords and are embedded as `whenClause` and
`thenClause`. -/
structure AcceptanceCriterion where
  id : String
  given : String
  whenClause : String
  thenClause : String
  notes : Option String
  deriving DecidableEq, Repr

/-- `Partial<AcceptanceCriterion>` as dispatched by
`UPDATE_ACCEPTANCE_CRITERION` (the application edits the Given/When/Then
fields; a present field overwrites the criterion's field). -/
structure PartialAcceptanceCriterion where
  given : Option String
  whenClause : Option String
  thenClause : Option String
  notes : Option String
  deriving DecidableEq, Repr

/-- `DecisionType` of storyState.ts. -/
inductive DecisionType where
  | accepted | rejected | edited
  deriving DecidableEq, Repr

/-- `DecisionTarget` of storyState.ts. -/
inductive DecisionTarget where
  | rewrite | criterion | issue
  deriving DecidableEq, Repr

/-- `UserDecision` of storyState.ts. -/
structure UserDecision where
  id : String
  targetType : DecisionTarget
  targetId : String
  decision : DecisionType
  originalValue : String
  editedValue : Option String
  timestamp : String
  deriving DecidableEq, Repr

/-- The `action` tag union of `VersionHistoryEntry`. -/
inductive HistoryAction where
  | initial | rewrite_accepted | manual_edit
  deriving DecidableEq, Repr

/-- `VersionHistoryEntry` of storyState.ts. -/
structure VersionHistoryEntry where
  id : String
  timestamp : String
  storyText : String
  structuredStory : Option StructuredStory
  action : HistoryAction
  description : String
  deriving DecidableEq, Repr

/-- `MetaInfo` of storyState.ts. -/
structure MetaInfo where
  projectId : String
  promptVersion : String
  modelId : String
  lastRunAt : Option String
  deriving DecidableEq, Repr

/-- `Partial<MetaInfo>` as dispatched by `UPDATE_META` (a present field
overwrites). -/
structure PartialMetaInfo where
  projectId : Option String
  promptVersion : Option String
  modelId : Option String
  lastRunAt : Option (Option String)
  deriving DecidableEq, Repr

/-- `WizardStep` of storyState.ts. -/
inductive WizardStep where
  | input | analysis | rewrite | criteria | export
  deriving DecidableEq, Repr

/-- `StoryState` of storyState.ts (the global state managed by the
part_005 provider). -/
structure StoryState where
  originalStoryText : String
  optimisedStoryText : String
  structuredStory : Option StructuredStory
  contextDocuments : List ContextDocument
  contextSnippets : List ContextSnippet
  additionalContext : String
  analysisIssues : List AnalysisIssue
  analysisScore : Option Int
  rewriteCandidates : List RewriteCandidate
  selectedRewriteId : Option String
  acceptanceCriteria : List AcceptanceCriterion
  userDecisions : List UserDecision
  exportMarkdown : String
  versionHistory : List VersionHistoryEntry
  meta : MetaInfo
  currentStep : WizardStep
  completedSteps : List WizardStep
  isLoading : Bool
  error : Option String
  deriving DecidableEq, Repr

/-- `StoryAction` of storyState.ts.  `RESET_STATE` carries the value of the
`generateId()` call the reducer performs for the fresh project id. -/
inductive StoryAction where
  | SET_ORIGINAL_STORY (payload : String)
  | SET_OPTIMISED_STORY (payload : String)
  | SET_STRUCTURED_STORY (payload : Option StructuredStory)
  | ADD_CONTEXT_DOCUMENT (payload : ContextDocument)
  | REMOVE_CONTEXT_DOCUMENT (payload : String)
  | ADD_CONTEXT_SNIPPET (payload : ContextSnippet)
  | REMOVE_CONTEXT_SNIPPET (payload : String)
  | SET_ANALYSIS_ISSUES (payload : List AnalysisIssue)
  | SET_ANALYSIS_SCORE (payload : Int)
  | UPDATE_ANALYSIS_ISSUE (id : String) (updates : PartialAnalysisIssue)
  | SET_REWRITE_CANDIDATES (payload : List RewriteCandidate)
  | SELECT_REWRITE (payload : Option String)
  | SET_ACCEPTANCE_CRITERIA (payload : List AcceptanceCriterion)
  | ADD_ACCEPTANCE_CRITERION (payload : AcceptanceCriterion)
  | UPDATE_ACCEPTANCE_CRITERION (id : String) (criterion : PartialAcceptanceCriterion)
  | REMOVE_ACCEPTANCE_CRITERION (payload : String)
  | ADD_USER_DECISION (payload : UserDecision)
  | SET_EXPORT_MARKDOWN (payload : String)
  | ADD_VERSION_HISTORY (payload : VersionHistoryEntry)
  | UPDATE_META (payload : PartialMetaInfo)
  | SET_CURRENT_STEP (payload : WizardStep)
  | MARK_STEP_COMPLETED (payload : WizardStep)
  | SET_LOADING (payload : Bool)
  | SET_ERROR (payload : Option String)
  | SET_ADDITIONAL_CONTEXT (payload : String)
  | RESET_STATE (freshProjectId : String)

/-- The `initialState` literal of part_005, parameterized over the
`generateId()` call that seeds `meta.projectId`.  (The part_005 snapshot
predates the `additionalContext` field of storyState.ts; it is initialised
empty here.) -/
def initialState (projectId : String) : StoryState :=
  { originalStoryText := ""
    optimisedStoryText := ""
    structuredStory := none
    contextDocuments := []
    contextSnippets := []
    additionalContext := ""
    analysisIssues := []
    analysisScore := none
    rewriteCandidates := []
    selectedRewriteId := none
    acceptanceCriteria := []
    userDecisions := []
    exportMarkdown := ""
    versionHistory := []
    meta :=
      { projectId := projectId
        promptVersion := "1.0.0"
        modelId := "mock-model"
        lastRunAt := none }
    currentStep := .input
    completedSteps := []
    isLoading := false
    error := none }

/-- `{ ...c, ...action.payload.criterion }` for a criterion update. -/
def applyCriterionUpdate (c : AcceptanceCriterion) (u : PartialAcceptanceCriterion) :
    AcceptanceCriterion :=
  { c with
    given := u.given.getD c.given
    whenClause := u.whenClause.getD c.whenClause
    thenClause := u.thenClause.getD c.thenClause
    notes := match u.notes with | some n => some n | none => c.notes }

/-- `storyReducer` of part_005.  Actions of the storyState.ts union that
the part_005 switch has no case for (`UPDATE_ANALYSIS_ISSUE`,
`SET_ADDITIONAL_CONTEXT`) fall through to `default: return state`. -/
def storyReducer (state : StoryState) (action : StoryAction) : StoryState :=
  match action with
  | .SET_ORIGINAL_STORY payload =>
    { state with
      originalStoryText := payload
      -- Reset downstream data when original changes
      optimisedStoryText := ""
      structuredStory := none
      analysisIssues := []
      analysisScore := none
      rewriteCandidates := []
      selectedRewriteId := none
      acceptanceCriteria := [] }
  | .SET_OPTIMISED_STORY payload => { state with optimisedStoryText := payload }
  | .SET_STRUCTURED_STORY payload => { state with structuredStory := payload }
  | .ADD_CONTEXT_DOCUMENT payload =>
    { state with contextDocuments := state.contextDocuments ++ [payload] }
  | .REMOVE_CONTEXT_DOCUMENT payload =>
    { state with contextDocuments := state.contextDocuments.filter fun d => d.id != payload }
  | .ADD_CONTEXT_SNIPPET payload =>
    { state with contextSnippets := state.contextSnippets ++ [payload] }
  | .REMOVE_CONTEXT_SNIPPET payload =>
    { state with contextSnippets := state.contextSnippets.filter fun s => s.id != payload }
  | .SET_ANALYSIS_ISSUES payload => { state with analysisIssues := payload }
  | .SET_ANALYSIS_SCORE payload => { state with analysisScore := some payload }
  | .UPDATE_ANALYSIS_ISSUE _ _ => state
  | .SET_REWRITE_CANDIDATES payload => { state with rewriteCandidates := payload }
  | .SELECT_REWRITE payload => { state with selectedRewriteId := payload }
  | .SET_ACCEPTANCE_CRITERIA payload => { state with acceptanceCriteria := payload }
  | .ADD_ACCEPTANCE_CRITERION payload =>
    { state with acceptanceCriteria := state.acceptanceCriteria ++ [payload] }
  | .UPDATE_ACCEPTANCE_CRITERION id criterion =>
    { state with
      acceptanceCriteria := state.acceptanceCriteria.map fun c =>
        if c.id = id then applyCriterionUpdate c criterion else c }
  | .REMOVE_ACCEPTANCE_CRITERION payload =>
    { state with acceptanceCriteria := state.acceptanceCriteria.filter fun c => c.id != payload }
  | .ADD_USER_DECISION payload =>
    { state with userDecisions := state.userDecisions ++ [payload] }
  | .SET_EXPORT_MARKDOWN payload => { state with exportMarkdown := payload }
  | .ADD_VERSION_HISTORY payload =>
    { state with versionHistory := state.versionHistory ++ [payload] }
  | .UPDATE_META payload =>
    { state with
      meta :=
        { projectId := payload.projectId.getD state.meta.projectId
          promptVersion := payload.promptVersion.getD state.meta.promptVersion
          modelId := payload.modelId.getD state.meta.modelId
          lastRunAt := match payload.lastRunAt with
            | some v => v
            | none => state.meta.lastRunAt } }
  | .SET_CURRENT_STEP payload => { state with currentStep := payload }
  | .MARK_STEP_COMPLETED payload =>
    if state.completedSteps.contains payload then state
    else { state with completedSteps := state.completedSteps ++ [payload] }
  | .SET_LOADING payload => { state with isLoading := payload }
  | .SET_ERROR payload => { state with error := payload }
  | .SET_ADDITIONAL_CONTEXT _ => state
  | .RESET_STATE freshProjectId => initialState freshProjectId

end StoryContextProvider

-- ============================================================
-- Remaining core types of storyTypes.ts needed by the
-- StoryWizard.tsx provider (second document of that file)
-- ============================================================

namespace StoryTypes

/-- The `'pending' | 'accepted' | 'rejected' | 'edited'` status union used
by `RewriteSuggestion` and `AcceptanceCriterionItem`. -/
inductive SuggestionStatus where
  | pending | accepted | rejected | edited
  deriving DecidableEq, Repr

/-- `RewriteChange` of storyTypes.ts. -/
structure RewriteChange where
  type : String
  description : String
  beforeText : Option String
  afterText : Option String
  deriving DecidableEq, Repr

/-- `RewriteSuggestion` of storyTypes.ts. -/
structure RewriteSuggestion where
  id : String
  originalSection : AffectedSection
  suggestedText : String
  explanation : String
  addressedIssueIds : List String
  changes : List RewriteChange
  confidence : Confidence
  openQuestions : Option (List String)
  createdAt : String
  status : SuggestionStatus
  editedText : Option String
  decidedAt : Option String
  deriving DecidableEq, Repr

/-- `CriterionType` of storyTypes.ts. -/
inductive CriterionType where
  | happy_path | edge_case | error_case | negative_case | performance | security
  deriving DecidableEq, Repr

/-- The Given/When/Then edit object the wizard UI passes to
`acceptCriterion` (a `Partial<AcceptanceCriterionItem>` restricted to the
fields the application ever edits; `when` and `then` are Lean keywords and
are embedded as `whenClause`/`thenClause`). -/
structure CriterionEdit where
  given : Option String
  whenClause : Option String
  thenClause : Option String
  deriving DecidableEq, Repr

/-- `AcceptanceCriterionItem` of storyTypes.ts. -/
structure AcceptanceCriterionItem where
  id : String
  title : String
  given : String
  whenClause : String
  thenClause : String
  notes : Option String
  type : CriterionType
  priority : String
  confidence : Confidence
  linkedIssueIds : Option (List String)
  status : SuggestionStatus
  editedCriterion : Option CriterionEdit
  decidedAt : Option String
  deriving DecidableEq, Repr

/-- `UserDecision` of storyTypes.ts (this family adds `deferred` and
`reason`). -/
inductive DecisionKind where
  | accepted | rejected | edited | deferred
  deriving DecidableEq, Repr

/-- The `'issue' | 'rewrite' | 'criterion'` target union of storyTypes.ts. -/
inductive DecisionTargetKind where
  | issue | rewrite | criterion
  deriving DecidableEq, Repr

/-- `UserDecision` of storyTypes.ts. -/
structure UserDecision where
  id : String
  targetType : DecisionTargetKind
  targetId : String
  decision : DecisionKind
  originalValue : String
  editedValue : Option String
  reason : Option String
  timestamp : String
  deriving DecidableEq, Repr

/-- `VersionHistoryEntry` of storyTypes.ts. -/
structure VersionHistoryEntry where
  id : String
  timestamp : String
  storyText : String
  structuredModel : Option StructuredStoryModel
  action : String
  description : String
  changedBy : String
  deriving DecidableEq, Repr

/-- The `'completed' | 'skipped' | 'failed'` status union of
`PipelineStageResult`. -/
inductive StageStatus where
  | completed | skipped | failed
  deriving DecidableEq, Repr

/-- `PipelineStageResult` of storyTypes.ts (per-stage record stored in the
wizard state; `issues` holds issue ids). -/
structure PipelineStageResult where
  stage : PipelineStage
  status : StageStatus
  issues : List String
  duration : Nat
  error : Option String
  deriving DecidableEq, Repr

/-- `StoryMetadata` of storyTypes.ts. -/
structure StoryMetadata where
  author : Option String
  projectId : String
  timestamp : String
  source : Option String
  tags : Option (List String)
  deriving DecidableEq, Repr

/-- `UserStoryInput` of storyTypes.ts. -/
structure UserStoryInput where
  id : String
  rawText : String
  existingAcceptanceCriteria : Option (List String)
  metadata : StoryMetadata
  createdAt : String
  updatedAt : String
  deriving DecidableEq, Repr

/-- `ContextDocument` of storyTypes.ts. -/
structure ContextDocument where
  id : String
  name : String
  content : String
  type : String
  mimeType : Option String
  addedAt : String
  deriving DecidableEq, Repr

/-- `OptimizedStory` of storyTypes.ts. -/
structure OptimizedStory where
  id : String
  text : String
  structuredModel : StructuredStoryModel
  acceptanceCriteria : List AcceptanceCriterionItem
  appliedSuggestions : List String
  resolvedIssues : List String
  remainingIssues : List String
  version : Nat
  createdAt : String
  basedOnVersion : Option String
  deriving DecidableEq, Repr

/-- `QualityReport` of storyTypes.ts (`issuesByCategory` is a record keyed
by category, modelled as an association list). -/
structure QualityReport where
  id : String
  storyId : String
  executedAt : String
  pipelineStages : List PipelineStageResult
  allIssues : List QualityIssue
  prioritizedIssues : List String
  issuesByCategory : List (IssueCategory × Int)
  overallScore : Int
  recommendations : List String
  optimizedStory : Option OptimizedStory
  userDecisions : List UserDecision
  promptVersion : String
  modelId : String
  deriving DecidableEq, Repr

/-- `LLMRuntimeConfig` of storyTypes.ts (`temperature` is a JavaScript
number; the only value the code constructs is 0.7, represented exactly as
a rational). -/
structure LLMRuntimeConfig where
  temperature : Rat
  topK : Nat
  maxTokens : Nat
  modelId : String
  promptVersion : String
  deriving DecidableEq, Repr

/-- `DEFAULT_LLM_CONFIG` of storyTypes.ts. -/
def DEFAULT_LLM_CONFIG : LLMRuntimeConfig :=
  { temperature := (7 : Rat) / 10
    topK := 40
    maxTokens := 2000
    modelId := "gpt-4o-mini"
    promptVersion := "v1" }

end StoryTypes

/-- JavaScript `a || b` for an optional string and a string default, where
both `undefined` and the empty string are falsy. -/
def jsOrString (a : Option String) (b : String) : String :=
  match a with
  | some s => if s = "" then b else s
  | none => b

/-- JavaScript truthiness of an optional string (`undefined` and the empty
string are falsy). -/
def jsTruthyStr (a : Option String) : Bool :=
  match a with
  | some s => s != ""
  | none => false

-- ============================================================
-- Wizard state, rich variant
-- (second document of src/components/StoryWizard.tsx: the
-- StoryContext provider with pipeline state, over storyTypes.ts)
-- ============================================================

namespace StoryWizardProvider

open StoryTypes

/-- `WizardStep` of the StoryWizard provider. -/
inductive WizardStep where
  | input | analysis | rewrite | criteria | export
  deriving DecidableEq, Repr

/-- The wizard provider's `meta` object. -/
structure MetaInfo where
  projectId : String
  promptVersion : String
  modelId : String
  lastRunAt : Option String
  deriving DecidableEq, Repr

/-- `Partial<StoryState['meta']>` as dispatched by `UPDATE_META`. -/
structure PartialMetaInfo where
  projectId : Option String
  promptVersion : Option String
  modelId : Option String
  lastRunAt : Option (Option String)
  deriving DecidableEq, Repr

/-- `Partial<QualityIssue>` as dispatched by `UPDATE_ANALYSIS_ISSUE`
(restricted to the human-curation fields the wizard UI updates: a present
field overwrites the issue's field with the given value). -/
structure PartialQualityIssue where
  isRelevant : Option Bool
  userNote : Option String
  deriving DecidableEq, Repr

/-- `Partial<RewriteSuggestion>` as dispatched by
`UPDATE_REWRITE_CANDIDATE` (restricted to the fields the wizard ever
updates).  `editedText` is doubly optional: `acceptRewrite` spreads an
update object whose `editedText` key is always present but may carry the
JavaScript value `undefined`, which overwrites the candidate's field. -/
structure RewriteUpdate where
  status : Option SuggestionStatus
  editedText : Option (Option String)
  decidedAt : Option String
  deriving DecidableEq, Repr

/-- `{ ...c, ...action.payload.updates }` for a rewrite-candidate update. -/
def applyRewriteUpdate (c : RewriteSuggestion) (u : RewriteUpdate) : RewriteSuggestion :=
  { c with
    status := u.status.getD c.status
    editedText := match u.editedText with | some v => v | none => c.editedText
    decidedAt := match u.decidedAt with | some d => some d | none => c.decidedAt }

/-- `Partial<AcceptanceCriterionItem>` as dispatched by
`UPDATE_ACCEPTANCE_CRITERION` (restricted to the fields the wizard ever
updates).  `acceptCriterion` spreads the UI edit object and then adds
`status`, an always-present `editedCriterion` key (possibly carrying
`undefined`) and `decidedAt`. -/
structure CriterionUpdate where
  given : Option String
  whenClause : Option String
  thenClause : Option String
  status : Option SuggestionStatus
  editedCriterion : Option (Option CriterionEdit)
  decidedAt : Option String
  deriving DecidableEq, Repr

/-- `{ ...c, ...action.payload.criterion }` for a criterion update. -/
def applyCriterionUpdate (c : AcceptanceCriterionItem) (u : CriterionUpdate) :
    AcceptanceCriterionItem :=
  { c with
    given := u.given.getD c.given
    whenClause := u.whenClause.getD c.whenClause
    thenClause := u.thenClause.getD c.thenClause
    status := u.status.getD c.status
    editedCriterion := match u.editedCriterion with | some v => v | none => c.editedCriterion
    decidedAt := match u.decidedAt with | some d => some d | none => c.decidedAt }

/-- `StoryState` of the StoryWizard provider. -/
structure StoryState where
  storyInput : Option UserStoryInput
  originalStoryText : String
  optimisedStoryText : String
  structuredStory : Option StructuredStoryModel
  contextDocuments : List ContextDocument
  contextSnippets : List ContextSnippet
  additionalContext : String
  pipelineStages : List PipelineStageResult
  currentPipelineStage : Option PipelineStage
  analysisIssues : List QualityIssue
  analysisScore : Option Int
  rewriteCandidates : List RewriteSuggestion
  selectedRewriteId : Option String
  acceptanceCriteria : List AcceptanceCriterionItem
  userDecisions : List UserDecision
  exportMarkdown : String
  qualityReport : Option QualityReport
  versionHistory : List VersionHistoryEntry
  meta : MetaInfo
  runtimeConfig : LLMRuntimeConfig
  currentStep : WizardStep
  completedSteps : List WizardStep
  isLoading : Bool
  loadingStage : Option String
  error : Option String
  deriving DecidableEq, Repr

/-- `Partial<LLMRuntimeConfig>` as dispatched by `SET_RUNTIME_CONFIG`. -/
structure PartialLLMRuntimeConfig where
  temperature : Option Rat
  topK : Option Nat
  maxTokens : Option Nat
  modelId : Option String
  promptVersion : Option String
  deriving DecidableEq, Repr

/-- `StoryAction` of the StoryWizard provider.  `RESET_STATE` carries the
`generateId()` value used for the fresh project id. -/
inductive StoryAction where
  | SET_STORY_INPUT (payload : UserStoryInput)
  | SET_ORIGINAL_STORY (payload : String)
  | SET_OPTIMISED_STORY (payload : String)
  | SET_STRUCTURED_STORY (payload : Option StructuredStoryModel)
  | ADD_CONTEXT_DOCUMENT (payload : ContextDocument)
  | REMOVE_CONTEXT_DOCUMENT (payload : String)
  | ADD_CONTEXT_SNIPPET (payload : ContextSnippet)
  | REMOVE_CONTEXT_SNIPPET (payload : String)
  | SET_ADDITIONAL_CONTEXT (payload : String)
  | SET_PIPELINE_STAGES (payload : List PipelineStageResult)
  | ADD_PIPELINE_STAGE (payload : PipelineStageResult)
  | SET_CURRENT_PIPELINE_STAGE (payload : Option PipelineStage)
  | SET_ANALYSIS_ISSUES (payload : List QualityIssue)
  | SET_ANALYSIS_SCORE (payload : Int)
  | UPDATE_ANALYSIS_ISSUE (id : String) (updates : PartialQualityIssue)
  | SET_REWRITE_CANDIDATES (payload : List RewriteSuggestion)
  | UPDATE_REWRITE_CANDIDATE (id : String) (updates : RewriteUpdate)
  | SELECT_REWRITE (payload : Option String)
  | SET_ACCEPTANCE_CRITERIA (payload : List AcceptanceCriterionItem)
  | ADD_ACCEPTANCE_CRITERION (payload : AcceptanceCriterionItem)
  | UPDATE_ACCEPTANCE_CRITERION (id : String) (criterion : CriterionUpdate)
  | REMOVE_ACCEPTANCE_CRITERION (payload : String)
  | ADD_USER_DECISION (payload : UserDecision)
  | SET_EXPORT_MARKDOWN (payload : String)
  | SET_QUALITY_REPORT (payload : Option QualityReport)
  | ADD_VERSION_HISTORY (payload : VersionHistoryEntry)
  | UPDATE_META (payload : PartialMetaInfo)
  | SET_RUNTIME_CONFIG (payload : PartialLLMRuntimeConfig)
  | SET_CURRENT_STEP (payload : WizardStep)
  | MARK_STEP_COMPLETED (payload : WizardStep)
  | SET_LOADING (payload : Bool)
  | SET_LOADING_STAGE (payload : Option String)
  | SET_ERROR (payload : Option String)
  | RESET_STATE (freshProjectId : String)

/-- The `initialState` literal of the StoryWizard provider, parameterized
over the `generateId()` call that seeds `meta.projectId`. -/
def initialState (projectId : String) : StoryState :=
  { storyInput := none
    originalStoryText := ""
    optimisedStoryText := ""
    structuredStory := none
    contextDocuments := []
    contextSnippets := []
    additionalContext := ""
    pipelineStages := []
    currentPipelineStage := none
    analysisIssues := []
    analysisScore := none
    rewriteCandidates := []
    selectedRewriteId := none
    acceptanceCriteria := []
    userDecisions := []
    exportMarkdown := ""
    qualityReport := none
    versionHistory := []
    meta :=
      { projectId := projectId
        promptVersion := "v1"
        modelId := "gpt-4o-mini"
        lastRunAt := none }
    runtimeConfig := DEFAULT_LLM_CONFIG
    currentStep := .input
    completedSteps := []
    isLoading := false
    loadingStage := none
    error := none }

/-- `storyReducer` of the StoryWizard provider. -/
def storyReducer (state : StoryState) (action : StoryAction) : StoryState :=
  match action with
  | .SET_STORY_INPUT payload => { state with storyInput := some payload }
  | .SET_ORIGINAL_STORY payload =>
    { state with
      originalStoryText := payload
      optimisedStoryText := ""
      structuredStory := none
      analysisIssues := []
      analysisScore := none
      rewriteCandidates := []
      selectedRewriteId := none
      acceptanceCriteria := []
      pipelineStages := [] }
  | .SET_OPTIMISED_STORY payload => { state with optimisedStoryText := payload }
  | .SET_STRUCTURED_STORY payload => { state with structuredStory := payload }
  | .ADD_CONTEXT_DOCUMENT payload =>
    { state with contextDocuments := state.contextDocuments ++ [payload] }
  | .REMOVE_CONTEXT_DOCUMENT payload =>
    { state with contextDocuments := state.contextDocuments.filter fun d => d.id != payload }
  | .ADD_CONTEXT_SNIPPET payload =>
    { state with contextSnippets := state.contextSnippets ++ [payload] }
  | .REMOVE_CONTEXT_SNIPPET payload =>
    { state with contextSnippets := state.contextSnippets.filter fun s => s.id != payload }
  | .SET_ADDITIONAL_CONTEXT payload => { state with additionalContext := payload }
  | .SET_PIPELINE_STAGES payload => { state with pipelineStages := payload }
  | .ADD_PIPELINE_STAGE payload =>
    { state with pipelineStages := state.pipelineStages ++ [payload] }
  | .SET_CURRENT_PIPELINE_STAGE payload => { state with currentPipelineStage := payload }
  | .SET_ANALYSIS_ISSUES payload => { state with analysisIssues := payload }
  | .SET_ANALYSIS_SCORE payload => { state with analysisScore := some payload }
  | .UPDATE_ANALYSIS_ISSUE id updates =>
    { state with
      analysisIssues := state.analysisIssues.map fun issue =>
        if issue.id = id then
          { issue with
            isRelevant := match updates.isRelevant with
              | some v => some v
              | none => issue.isRelevant
            userNote := match updates.userNote with
              | some v => some v
              | none => issue.userNote }
        else issue }
  | .SET_REWRITE_CANDIDATES payload => { state with rewriteCandidates := payload }
  | .UPDATE_REWRITE_CANDIDATE id updates =>
    { state with
      rewriteCandidates := state.rewriteCandidates.map fun c =>
        if c.id = id then applyRewriteUpdate c updates else c }
  | .SELECT_REWRITE payload => { state with selectedRewriteId := payload }
  | .SET_ACCEPTANCE_CRITERIA payload => { state with acceptanceCriteria := payload }
  | .ADD_ACCEPTANCE_CRITERION payload =>
    { state with acceptanceCriteria := state.acceptanceCriteria ++ [payload] }
  | .UPDATE_ACCEPTANCE_CRITERION id criterion =>
    { state with
      acceptanceCriteria := state.acceptanceCriteria.map fun c =>
        if c.id = id then applyCriterionUpdate c criterion else c }
  | .REMOVE_ACCEPTANCE_CRITERION payload =>
    { state with acceptanceCriteria := state.acceptanceCriteria.filter fun c => c.id != payload }
  | .ADD_USER_DECISION payload =>
    { state with userDecisions := state.userDecisions ++ [payload] }
  | .SET_EXPORT_MARKDOWN payload => { state with exportMarkdown := payload }
  | .SET_QUALITY_REPORT payload => { state with qualityReport := payload }
  | .ADD_VERSION_HISTORY payload =>
    { state with versionHistory := state.versionHistory ++ [payload] }
  | .UPDATE_META payload =>
    { state with
      meta :=
        { projectId := payload.projectId.getD state.meta.projectId
          promptVersion := payload.promptVersion.getD state.meta.promptVersion
          modelId := payload.modelId.getD state.meta.modelId
          lastRunAt := match payload.lastRunAt with
            | some v => v
            | none => state.meta.lastRunAt } }
  | .SET_RUNTIME_CONFIG payload =>
    { state with
      runtimeConfig :=
        { temperature := payload.temperature.getD state.runtimeConfig.temperature
          topK := payload.topK.getD state.runtimeConfig.topK
          maxTokens := payload.maxTokens.getD state.runtimeConfig.maxTokens
          modelId := payload.modelId.getD state.runtimeConfig.modelId
          promptVersion := payload.promptVersion.getD state.runtimeConfig.promptVersion } }
  | .SET_CURRENT_STEP payload => { state with currentStep := payload }
  | .MARK_STEP_COMPLETED payload =>
    if state.completedSteps.contains payload then state
    else { state with completedSteps := state.completedSteps ++ [payload] }
  | .SET_LOADING payload => { state with isLoading := payload }
  | .SET_LOADING_STAGE payload => { state with loadingStage := payload }
  | .SET_ERROR payload => { state with error := payload }
  | .RESET_STATE freshProjectId => initialState freshProjectId

/-- `acceptRewrite` of the StoryWizard provider (lines 617–641): looks up
the candidate, returns silently when the id is unknown, otherwise
dispatches `SET_OPTIMISED_STORY`, `SELECT_REWRITE`,
`UPDATE_REWRITE_CANDIDATE` and `ADD_USER_DECISION` in order.  `decisionId`
injects the `generateId()` call; `decidedAt` and `timestamp` inject the two
`createTimestamp()` calls. -/
def acceptRewrite (state : StoryState) (id : String) (editedText : Option String)
    (decisionId : String) (decidedAt : String) (timestamp : String) : StoryState :=
  match state.rewriteCandidates.find? (fun c => c.id == id) with
  | none => state
  | some candidate =>
    let finalText := jsOrString editedText candidate.suggestedText
    let s1 := storyReducer state (.SET_OPTIMISED_STORY finalText)
    let s2 := storyReducer s1 (.SELECT_REWRITE (some id))
    let s3 := storyReducer s2 (.UPDATE_REWRITE_CANDIDATE id
      { status := some (if jsTruthyStr editedText then .edited else .accepted)
        editedText := some editedText
        decidedAt := some decidedAt })
    storyReducer s3 (.ADD_USER_DECISION
      { id := decisionId
        targetType := .rewrite
        targetId := id
        decision := if jsTruthyStr editedText then .edited else .accepted
        originalValue := candidate.suggestedText
        editedValue := editedText
        reason := none
        timestamp := timestamp })

/-- `rejectRewrite` of the StoryWizard provider (lines 643–662). -/
def rejectRewrite (state : StoryState) (id : String)
    (decisionId : String) (decidedAt : String) (timestamp : String) : StoryState :=
  match state.rewriteCandidates.find? (fun c => c.id == id) with
  | none => state
  | some candidate =>
    let s1 := storyReducer state (.UPDATE_REWRITE_CANDIDATE id
      { status := some .rejected
        editedText := none
        decidedAt := some decidedAt })
    storyReducer s1 (.ADD_USER_DECISION
      { id := decisionId
        targetType := .rewrite
        targetId := id
        decision := .rejected
        originalValue := candidate.suggestedText
        editedValue := none
        reason := none
        timestamp := timestamp })

/-- The audit snapshot string `Given ..., When ..., Then ...` built by the
criterion operations. -/
def criterionSnapshot (given whenClause thenClause : String) : String :=
  "Given " ++ given ++ ", When " ++ whenClause ++ ", Then " ++ thenClause

/-- `acceptCriterion` of the StoryWizard provider (lines 668–698). -/
def acceptCriterion (state : StoryState) (id : String)
    (editedCriterion : Option CriterionEdit)
    (decisionId : String) (decidedAt : String) (timestamp : String) : StoryState :=
  match state.acceptanceCriteria.find? (fun c => c.id == id) with
  | none => state
  | some criterion =>
    let s1 := storyReducer state (.UPDATE_ACCEPTANCE_CRITERION id
      { given := editedCriterion.bind (·.given)
        whenClause := editedCriterion.bind (·.whenClause)
        thenClause := editedCriterion.bind (·.thenClause)
        status := some (if editedCriterion.isSome then .edited else .accepted)
        editedCriterion := some editedCriterion
        decidedAt := some decidedAt })
    storyReducer s1 (.ADD_USER_DECISION
      { id := decisionId
        targetType := .criterion
        targetId := id
        decision := if editedCriterion.isSome then .edited else .accepted
        originalValue := criterionSnapshot criterion.given criterion.whenClause criterion.thenClause
        editedValue := match editedCriterion with
          | some e => some (criterionSnapshot
              (jsOrString e.given criterion.given)
              (jsOrString e.whenClause criterion.whenClause)
              (jsOrString e.thenClause criterion.thenClause))
          | none => none
        reason := none
        timestamp := timestamp })

/-- `rejectCriterion` of the StoryWizard provider (lines 700–719). -/
def rejectCriterion (state : StoryState) (id : String)
    (decisionId : String) (decidedAt : String) (timestamp : String) : StoryState :=
  match state.acceptanceCriteria.find? (fun c => c.id == id) with
  | none => state
  | some criterion =>
    let s1 := storyReducer state (.UPDATE_ACCEPTANCE_CRITERION id
      { given := none
        whenClause := none
        thenClause := none
        status := some .rejected
        editedCriterion := none
        decidedAt := some decidedAt })
    storyReducer s1 (.ADD_USER_DECISION
      { id := decisionId
        targetType := .criterion
        targetId := id
        decision := .rejected
        originalValue := criterionSnapshot criterion.given criterion.whenClause criterion.thenClause
        editedValue := none
        reason := none
        timestamp := timestamp })

end StoryWizardProvider

-- ============================================================
-- Heuristic user-story parser (unnamed/part_008: storyParser)
-- ============================================================

namespace StoryParser

/-- Abstract syntax of the JavaScript regular expressions used by
`parseUserStory`.  Quantifiers over single-character classes are primitive
(`lazyPlus` is `(.+?)`-style, `greedyPlus` is `\s+`, `greedyStar` is
`\s*`); `opt` is the greedy `?`; `group` is the single capturing group of
each pattern; `eos` is the `$` anchor (no multiline flag). -/
inductive RE where
  | eps
  | cls (p : Char → Bool)
  | seq (a b : RE)
  | alt (a b : RE)
  | opt (a : RE)
  | lazyPlus (p : Char → Bool)
  | greedyPlus (p : Char → Bool)
  | greedyStar (p : Char → Bool)
  | group (a : RE)
  | eos

/-- The suffixes left after consuming 1, 2, … characters of `s` matching
`p` (shortest first): the backtracking alternatives of a lazy `+` over a
character class. -/
def charRuns (p : Char → Bool) : List Char → List (List Char)
  | [] => []
  | c :: rest => if p c then rest :: charRuns p rest else []

/-- Backtracking matcher: all ways to match `re` against a prefix of the
input, in the priority order a JavaScript regex engine explores them.
Each result is the remaining suffix paired with the text captured by the
(single) group, when the group participated in the match. -/
def mrun : RE → List Char → List (List Char × Option (List Char))
  | .eps, s => [(s, none)]
  | .cls p, s =>
    match s with
    | [] => []
    | c :: rest => if p c then [(rest, none)] else []
  | .seq a b, s =>
    (mrun a s).flatMap fun pr => (mrun b pr.1).map fun pr2 => (pr2.1, pr.2 <|> pr2.2)
  | .alt a b, s => mrun a s ++ mrun b s
  | .opt a, s => mrun a s ++ [(s, none)]
  | .lazyPlus p, s => (charRuns p s).map fun r => (r, none)
  | .greedyPlus p, s => ((charRuns p s).reverse).map fun r => (r, none)
  | .greedyStar p, s => (((charRuns p s).reverse).map fun r => (r, none)) ++ [(s, none)]
  | .group a, s => (mrun a s).map fun pr => (pr.1, some (s.take (s.length - pr.1.length)))
  | .eos, s => if s.isEmpty then [(s, none)] else []

/-- `String.prototype.match` (leftmost match, then engine priority):
returns the group-1 capture, the suffix after the match end, and whether
the match was empty (needed for the `lastIndex` rule of `matchAll`). -/
def reFind (re : RE) : List Char → Option (Option (List Char) × List Char × Bool)
  | [] =>
    match (mrun re []).head? with
    | some (rest, cap) => some (cap, rest, true)
    | none => none
  | s@(_ :: t) =>
    match (mrun re s).head? with
    | some (rest, cap) => some (cap, rest, rest.length == s.length)
    | none => reFind re t

/-- `String.prototype.matchAll` for a global regex: successive
non-overlapping matches, continuing after each match end (one position
further on an empty match).  Returns the group-1 captures.  `fuel` bounds
the iteration (input length + 1 suffices since every step consumes at
least one character of the remaining input). -/
def reFindAll (re : RE) : Nat → List Char → List (Option (List Char))
  | 0, _ => []
  | fuel + 1, s =>
    match reFind re s with
    | none => []
    | some (cap, rest, emptyMatch) =>
      cap ::
        (if emptyMatch then
          match rest with
          | [] => []
          | _ :: t => reFindAll re fuel t
        else reFindAll re fuel rest)

/-- Case-insensitive single-character match (the `i` flag; ASCII folding,
see `jsToLower`). -/
def ci (c : Char) : Char → Bool := fun x => x.toLower == c.toLower

/-- A case-insensitive literal. -/
def lit (s : String) : RE :=
  s.data.foldr (fun c acc => RE.seq (RE.cls (ci c)) acc) RE.eps

/-- Ordered alternation `(?:a|b|…)`. -/
def altList : List RE → RE
  | [] => RE.cls fun _ => false
  | [r] => r
  | r :: rest => RE.alt r (altList rest)

/-- The `.` class (any character but a line terminator; no `s` flag). -/
def dot : Char → Bool := fun c =>
  !(c == '\n' || c == '\r' || c == ' ' || c == ' ')

/-- The `,` class. -/
def comma : Char → Bool := fun c => c == ','

/-- The `.` literal terminator class. -/
def period : Char → Bool := fun c => c == '.'

/-- `germanPatterns.role`:
`/als\s+(?:ein(?:e|er|em|en)?\s+)?(.+?)(?:\s+möchte|\s+will|\s+wünsche|\s+brauche)/i` -/
def germanRole : RE :=
  .seq (lit "als")
    (.seq (.greedyPlus jsWhitespace)
      (.seq (.opt (.seq (lit "ein")
              (.seq (.opt (altList [lit "e", lit "er", lit "em", lit "en"]))
                (.greedyPlus jsWhitespace))))
        (.seq (.group (.lazyPlus dot))
          (altList
            [.seq (.greedyPlus jsWhitespace) (lit "möchte"),
             .seq (.greedyPlus jsWhitespace) (lit "will"),
             .seq (.greedyPlus jsWhitespace) (lit "wünsche"),
             .seq (.greedyPlus jsWhitespace) (lit "brauche")]))))

/-- The terminator alternative `\s*,?\s*W` for a literal word `W`. -/
def commaSep (w : RE) : RE :=
  .seq (.greedyStar jsWhitespace)
    (.seq (.opt (.cls comma)) (.seq (.greedyStar jsWhitespace) w))

/-- `germanPatterns.goal`:
`/(?:möchte ich|will ich|wünsche ich|brauche ich)\s+(.+?)(?:\s*,?\s*damit|\s*,?\s*um\s+zu|\s*,?\s*sodass|\s*\.|$)/i` -/
def germanGoal : RE :=
  .seq (altList [lit "möchte ich", lit "will ich", lit "wünsche ich", lit "brauche ich"])
    (.seq (.greedyPlus jsWhitespace)
      (.seq (.group (.lazyPlus dot))
        (altList
          [commaSep (lit "damit"),
           commaSep (.seq (lit "um") (.seq (.greedyPlus jsWhitespace) (lit "zu"))),
           commaSep (lit "sodass"),
           .seq (.greedyStar jsWhitespace) (.cls period),
           .eos])))

/-- `germanPatterns.benefit`: `/(?:damit|um zu|sodass)\s+(.+?)(?:\.|$)/i` -/
def germanBenefit : RE :=
  .seq (altList [lit "damit", lit "um zu", lit "sodass"])
    (.seq (.greedyPlus jsWhitespace)
      (.seq (.group (.lazyPlus dot))
        (altList [.cls period, .eos])))

/-- `englishPatterns.role`:
`/as\s+(?:a|an)?\s*(.+?)(?:\s*,?\s*i\s+want|\s*,?\s*i\s+need|\s*,?\s*i\s+would\s+like)/i` -/
def englishRole : RE :=
  .seq (lit "as")
    (.seq (.greedyPlus jsWhitespace)
      (.seq (.opt (altList [lit "a", lit "an"]))
        (.seq (.greedyStar jsWhitespace)
          (.seq (.group (.lazyPlus dot))
            (altList
              [commaSep (.seq (lit "i") (.seq (.greedyPlus jsWhitespace) (lit "want"))),
               commaSep (.seq (lit "i") (.seq (.greedyPlus jsWhitespace) (lit "need"))),
               commaSep (.seq (lit "i")
                 (.seq (.greedyPlus jsWhitespace)
                   (.seq (lit "would") (.seq (.greedyPlus jsWhitespace) (lit "like")))))])))))

/-- `englishPatterns.goal`:
`/(?:i\s+want|i\s+need|i\s+would\s+like)\s+(?:to\s+)?(.+?)(?:\s*,?\s*so\s+that|\s*,?\s*in\s+order\s+to|\s*\.|$)/i` -/
def englishGoal : RE :=
  .seq (altList
      [.seq (lit "i") (.seq (.greedyPlus jsWhitespace) (lit "want")),
       .seq (lit "i") (.seq (.greedyPlus jsWhitespace) (lit "need")),
       .seq (lit "i")
         (.seq (.greedyPlus jsWhitespace)
           (.seq (lit "would") (.seq (.greedyPlus jsWhitespace) (lit "like"))))])
    (.seq (.greedyPlus jsWhitespace)
      (.seq (.opt (.seq (lit "to") (.greedyPlus jsWhitespace)))
        (.seq (.group (.lazyPlus dot))
          (altList
            [commaSep (.seq (lit "so") (.seq (.greedyPlus jsWhitespace) (lit "that"))),
             commaSep (.seq (lit "in")
               (.seq (.greedyPlus jsWhitespace)
                 (.seq (lit "order") (.seq (.greedyPlus jsWhitespace) (lit "to"))))),
             .seq (.greedyStar jsWhitespace) (.cls period),
             .eos]))))

/-- `englishPatterns.benefit`: `/(?:so\s+that|in\s+order\s+to)\s+(.+?)(?:\.|$)/i` -/
def englishBenefit : RE :=
  .seq (altList
      [.seq (lit "so") (.seq (.greedyPlus jsWhitespace) (lit "that")),
       .seq (lit "in")
         (.seq (.greedyPlus jsWhitespace)
           (.seq (lit "order") (.seq (.greedyPlus jsWhitespace) (lit "to"))))])
    (.seq (.greedyPlus jsWhitespace)
      (.seq (.group (.lazyPlus dot))
        (altList [.cls period, .eos])))

/-- A constraint pattern `/(?:w1|w2|…)\s+(.+?)(?:\.|$)/gi` over plain
literal alternatives. -/
def constraintPattern (words : List String) : RE :=
  .seq (altList (words.map lit))
    (.seq (.greedyPlus jsWhitespace)
      (.seq (.group (.lazyPlus dot))
        (altList [.cls period, .eos])))

/-- `cleanExtractedText` of the parser: strip one trailing run of `,;:`
(`/[,;:]+$/`), collapse every whitespace run to a single space
(`/\s+/g` → `' '`), then trim. -/
def collapseWSRun (prevWS : Bool) : List Char → List Char
  | [] => []
  | c :: rest =>
    if jsWhitespace c then
      if prevWS then collapseWSRun true rest
      else ' ' :: collapseWSRun true rest
    else c :: collapseWSRun false rest

/-- `replace(/\s+/g, ' ')`: every maximal whitespace run becomes one
space. -/
def collapseWhitespace (cs : List Char) : List Char :=
  collapseWSRun false cs

/-- `cleanExtractedText` of the parser. -/
def cleanExtractedText (s : String) : String :=
  let step1 := ((s.data.reverse.dropWhile fun c => c == ',' || c == ';' || c == ':').reverse)
  String.mk (jsTrimList (collapseWhitespace step1))

/-- `match?.[1]?.trim() || ''` on a match result. -/
def matchGroupTrim (m : Option (Option (List Char) × List Char × Bool)) : String :=
  match m with
  | some (some cap, _, _) => String.mk (jsTrimList cap)
  | _ => ""

/-- The constraint-extraction scan of `parseUserStory`: the three global
patterns in order, each capture cleaned, kept when non-empty and not
already present (exact-string dedup). -/
def collectConstraints (text : List Char) : List String :=
  let patterns :=
    [constraintPattern ["aber", "jedoch", "allerdings"],
     constraintPattern ["außer", "ausgenommen"],
     constraintPattern ["nicht", "ohne"]]
  patterns.foldl
    (fun acc pat =>
      (reFindAll pat (text.length + 1) text).foldl
        (fun acc cap =>
          match cap with
          | some cs =>
            let constraint := cleanExtractedText (String.mk cs)
            if constraint != "" && !(acc.contains constraint) then acc ++ [constraint]
            else acc
          | none => acc)
        acc)
    []

/-- `parseUserStory` of unnamed/part_008. -/
def parseUserStory (text : String) : Option StoryContextProvider.StructuredStory :=
  let normalizedText := jsTrimList text.data
  if normalizedText.isEmpty then none
  else
    let germanRoleMatch := reFind germanRole normalizedText
    let germanGoalMatch := reFind germanGoal normalizedText
    let germanBenefitMatch := reFind germanBenefit normalizedText
    let rgb :=
      if germanRoleMatch.isSome || germanGoalMatch.isSome then
        (matchGroupTrim germanRoleMatch,
         matchGroupTrim germanGoalMatch,
         matchGroupTrim germanBenefitMatch)
      else
        (matchGroupTrim (reFind englishRole normalizedText),
         matchGroupTrim (reFind englishGoal normalizedText),
         matchGroupTrim (reFind englishBenefit normalizedText))
    let role := cleanExtractedText rgb.1
    let goal := cleanExtractedText rgb.2.1
    let benefit := cleanExtractedText rgb.2.2
    if role = "" && goal = "" && benefit = "" then none
    else
      let constraints := collectConstraints normalizedText
      some
        { role := if role = "" then "Nicht erkannt" else role
          goal := if goal = "" then "Nicht erkannt" else goal
          benefit := if benefit = "" then "Nicht angegeben" else benefit
          constraints := if constraints.isEmpty then none else some constraints }

/-- `calculateCompletenessScore` of unnamed/part_008. -/
def calculateCompletenessScore (story : StoryContextProvider.StructuredStory) : Nat :=
  (if story.role ≠ "" ∧ story.role ≠ "Nicht erkannt" then 35 else 0) +
  (if story.goal ≠ "" ∧ story.goal ≠ "Nicht erkannt" then 40 else 0) +
  (if story.benefit ≠ "" ∧ story.benefit ≠ "Nicht angegeben" then 25 else 0)

end StoryParser

-- ============================================================
-- Specification-side definitions and concrete instances
-- (used by the claim theorems, their witnesses and
-- counterexamples)
-- ============================================================

namespace LLMProxyApi

open StoryTypes

/-- The penalty a finding contributes to the derived score. -/
def severityPenalty (issue : QualityIssue) : Int :=
  match issue.severity with
  | .critical => 20
  | .major => 10
  | .minor => 5
  | .info => 2

/-- The derived-score formula in the words of the specification: start at
100, subtract 20 per critical, 10 per major, 5 per minor and 2 per info
finding, floored at 0. -/
def specDerivedScore (issues : List QualityIssue) : Int :=
  max 0 (100 -
    (20 * (issues.countP fun i => i.severity == .critical) +
     10 * (issues.countP fun i => i.severity == .major) +
     5 * (issues.countP fun i => i.severity == .minor) +
     2 * (issues.countP fun i => i.severity == .info) : Int))

/-- A stage response with no findings and no extras. -/
def emptyResp : RawStageResponse :=
  { issues := [], summary := none, structuredModel := none, overallScore := none }

/-- A fixed id supply for concrete runs. -/
def genId0 : PipelineStage → Nat → String := fun _ _ => "generated-id"

/-- An oracle that throws (only) on one stage's requests and returns the
empty response elsewhere. -/
def failAt (s : PipelineStage) (e : String) : LLMProxyOracle := fun req =>
  if req.operation = s then .error e else .ok (emptyResp, 3)

/-- An oracle whose quality_check response carries the given
`overallScore` and whose other responses are empty. -/
def scoreAt (sc : Option Int) : LLMProxyOracle := fun req =>
  if req.operation = .quality_check then .ok ({ emptyResp with overallScore := sc }, 1)
  else .ok (emptyResp, 1)

end LLMProxyApi

namespace ProxyPipeline

/-- One engine call fails, in the sense triggering the proxy's retry:
either the call throws (transport, empty completion, JSON parse) or its
parsed result fails the structural validation for the operation. -/
def callFails (llm : LLMOracle) (operation : Operation) (prompt : String) : Prop :=
  (∃ e, llm prompt = .error e) ∨
  (∃ r, llm prompt = .ok r ∧ validateResponse operation r = false)

/-- A concrete engine whose first call (prompt `"P"`) throws and whose
retry returns a valid stage response. -/
def llmFailThenOk : LLMOracle := fun p =>
  if p = "P" then .error "timeout"
  else .ok (Json.obj [("issues", Json.arr [])])

end ProxyPipeline

namespace StoryWizardProvider

open StoryTypes

/-- A pending rewrite candidate for concrete decision runs. -/
def sampleCandidate : RewriteSuggestion :=
  { id := "rw1"
    originalSection := .overall
    suggestedText := "Als Nutzer möchte ich X, damit Y."
    explanation := "klarer"
    addressedIssueIds := []
    changes := []
    confidence := .medium
    openQuestions := none
    createdAt := "t0"
    status := .pending
    editedText := none
    decidedAt := none }

/-- A pending acceptance criterion for concrete decision runs. -/
def sampleCriterion : AcceptanceCriterionItem :=
  { id := "ac1"
    title := "Login"
    given := "ein registrierter Nutzer"
    whenClause := "er sich anmeldet"
    thenClause := "sieht er sein Konto"
    notes := none
    type := .happy_path
    priority := "must"
    confidence := .medium
    linkedIssueIds := none
    status := .pending
    editedCriterion := none
    decidedAt := none }

/-- A wizard state holding one candidate and one criterion. -/
def sampleState : StoryState :=
  { initialState "p" with
    rewriteCandidates := [sampleCandidate]
    acceptanceCriteria := [sampleCriterion] }

end StoryWizardProvider

namespace StoryContextProvider

/-- A part_005 state carrying a generated export document (and some other
derived data), used to exercise `SET_ORIGINAL_STORY`. -/
def stateWithExport : StoryState :=
  { initialState "p" with
    originalStoryText := "alte Story"
    optimisedStoryText := "optimierte Story"
    exportMarkdown := "# User Story Quality Report"
    userDecisions :=
      [{ id := "d1", targetType := .rewrite, targetId := "rw1",
         decision := .accepted, originalValue := "v", editedValue := none,
         timestamp := "t1" }] }

end StoryContextProvider

namespace LLMProxyApi

open StoryTypes

/-- One iteration of the stage loop of `runFullPipeline` with the
`onStageComplete` callback made explicit.  The callback is modelled as an
arbitrary observer: it carries its own state `σ` (the UI dispatches it
performs live there) and is applied exactly where the source invokes
`onStageComplete(stage, result)` — in the success branch, after the
stage's result has been recorded.  Its output never feeds back into the
loop variables, because the source ignores the callback's return value (a
throwing callback is not modelled). -/
def runStageStepObs {σ : Type} (proxy : LLMProxyOracle)
    (genId : PipelineStage → Nat → String) (storyText : String)
    (contextSnippets : List ContextSnippet)
    (cb : σ → PipelineStage → PipelineStageResultData → σ)
    (st : RunState) (obs : σ) (stage : PipelineStage) : RunState × σ :=
  let callResult := runPipelineStage proxy (genId stage) stage storyText
    st.currentStructuredModel contextSnippets st.accumulatedResults
  let st := { st with invokedStages := st.invokedStages ++ [stage] }
  match callResult with
  | .ok result =>
    ({ st with
        stages := st.stages ++ [result]
        allIssues := st.allIssues ++ result.issues
        currentStructuredModel :=
          match result.structuredModel with
          | some m => some m
          | none => st.currentStructuredModel
        overallScore :=
          match result.overallScore with
          | some v => v
          | none => st.overallScore
        accumulatedResults := st.accumulatedResults ++
          [(stage,
            { issues := result.issues.map fun i =>
                { id := i.id, category := i.category, severity := i.severity,
                  textReference := i.textReference, reasoning := i.reasoning }
              summary := result.summary })]
        callbackTrace := st.callbackTrace ++ [(stage, result)] },
     cb obs stage result)
  | .error e =>
    ({ st with stages := st.stages ++ [failedStageRecord stage e] }, obs)

/-- The stage loop of `runFullPipeline` with the explicit callback
observer. -/
def runStagesObs {σ : Type} (proxy : LLMProxyOracle)
    (genId : PipelineStage → Nat → String) (storyText : String)
    (contextSnippets : List ContextSnippet)
    (cb : σ → PipelineStage → PipelineStageResultData → σ) :
    List PipelineStage → RunState → σ → RunState × σ
  | [], st, obs => (st, obs)
  | stage :: rest, st, obs =>
    let p := runStageStepObs proxy genId storyText contextSnippets cb st obs stage
    runStagesObs proxy genId storyText contextSnippets cb rest p.1 p.2

/-- `runFullPipeline` with the `onStageComplete` callback made explicit:
the same run, returned together with the callback's final observer
state. -/
def runFullPipelineObs {σ : Type} (proxy : LLMProxyOracle)
    (genId : PipelineStage → Nat → String) (storyText : String)
    (structuredStory : Option StructuredStoryModel)
    (contextSnippets : List ContextSnippet)
    (cb : σ → PipelineStage → PipelineStageResultData → σ) (s0 : σ) :
    FullPipelineRun × σ :=
  let p := runStagesObs proxy genId storyText contextSnippets cb
    PIPELINE_STAGES (initRunState structuredStory) s0
  let final := p.1
  let summary := String.intercalate "\n\n"
    ((final.stages.filter fun s =>
        match s.summary with
        | some t => t != ""
        | none => false).map fun s =>
      "**" ++ stageName s.stage ++ "**: " ++ s.summary.getD "")
  ({ result :=
      { stages := final.stages
        allIssues := final.allIssues
        structuredModel := final.currentStructuredModel
        overallScore :=
          if final.overallScore ≠ 0 then final.overallScore
          else calculateScoreFromIssues final.allIssues
        summary := summary }
     invokedStages := final.invokedStages
     callbackTrace := final.callbackTrace }, p.2)

end LLMProxyApi

-- ============================================================
-- Theorems
-- ============================================================

-- ------------------------------------------------------------
-- Pipeline runner lemmas
-- ------------------------------------------------------------

namespace LLMProxyApi

open StoryTypes

theorem runPipelineStage_ok_stage {proxy : LLMProxyOracle} {genId : Nat → String}
    {stage : PipelineStage} {storyText : String} {ss : Option StructuredStoryModel}
    {cs : List ContextSnippet} {prev : List (PipelineStage × AccumEntry)}
    {r : PipelineStageResultData}
    (h : runPipelineStage proxy genId stage storyText ss cs prev = .ok r) :
    r.stage = stage := by
  unfold runPipelineStage at h
  split at h
  · exact absurd h (by simp)
  · injection h with h'
    rw [← h']
    rfl

theorem runPipelineStage_ok_overallScore_ne {proxy : LLMProxyOracle} {genId : Nat → String}
    {stage : PipelineStage} {storyText : String} {ss : Option StructuredStoryModel}
    {cs : List ContextSnippet} {prev : List (PipelineStage × AccumEntry)}
    {r : PipelineStageResultData}
    (hs : stage ≠ .quality_check)
    (h : runPipelineStage proxy genId stage storyText ss cs prev = .ok r) :
    r.overallScore = none := by
  unfold runPipelineStage at h
  split at h
  · exact absurd h (by simp)
  · injection h with h'
    rw [← h']
    simp [mkStageResult, hs]

theorem runPipelineStage_error_of {proxy : LLMProxyOracle} {s : PipelineStage} {e : String}
    (hf : ∀ req : StageRequest, req.operation = s → proxy req = .error e)
    (genId : Nat → String) (storyText : String) (ss : Option StructuredStoryModel)
    (cs : List ContextSnippet) (prev : List (PipelineStage × AccumEntry)) :
    runPipelineStage proxy genId s storyText ss cs prev = .error e := by
  unfold runPipelineStage
  rw [hf _ rfl]

theorem runPipelineStage_ok_of {proxy : LLMProxyOracle} {s : PipelineStage}
    {qresp : RawStageResponse} {d : Nat}
    (hq : ∀ req : StageRequest, req.operation = s → proxy req = .ok (qresp, d))
    (genId : Nat → String) (storyText : String) (ss : Option StructuredStoryModel)
    (cs : List ContextSnippet) (prev : List (PipelineStage × AccumEntry)) :
    runPipelineStage proxy genId s storyText ss cs prev =
      .ok (mkStageResult genId s qresp d) := by
  unfold runPipelineStage
  rw [hq _ rfl]

theorem runStageStep_invoked (proxy : LLMProxyOracle) (genId : PipelineStage → Nat → String)
    (t : String) (cs : List ContextSnippet) (st : RunState) (s : PipelineStage) :
    (runStageStep proxy genId t cs st s).invokedStages = st.invokedStages ++ [s] := by
  cases h : runPipelineStage proxy (genId s) s t st.currentStructuredModel cs
      st.accumulatedResults <;>
    simp [runStageStep, h]

theorem runStages_invoked (proxy : LLMProxyOracle) (genId : PipelineStage → Nat → String)
    (t : String) (cs : List ContextSnippet) :
    ∀ (l : List PipelineStage) (st : RunState),
      (runStages proxy genId t cs l st).invokedStages = st.invokedStages ++ l := by
  intro l
  induction l with
  | nil => intro st; simp [runStages]
  | cons s rest ih =>
    intro st
    rw [runStages, ih, runStageStep_invoked]
    simp

end LLMProxyApi

-- ------------------------------------------------------------
-- C1
-- ------------------------------------------------------------

/-- C1 (corrected, counterexample): the claim asserts the canonical
invocation order ends with acceptance_criteria; on a concrete run the
invocation trace is the source order of `PIPELINE_STAGES`, which places
acceptance_criteria fourth, not sixth — the claimed order is not the
trace. -/
theorem pipeline_stage_order_cex :
    (LLMProxyApi.runFullPipeline (LLMProxyApi.failAt .quality_check "down")
        LLMProxyApi.genId0 "s" none []).invokedStages =
      [.ambiguity_analysis, .structure_check, .quality_check,
       .acceptance_criteria, .business_value, .solution_bias] ∧
    (LLMProxyApi.runFullPipeline (LLMProxyApi.failAt .quality_check "down")
        LLMProxyApi.genId0 "s" none []).invokedStages ≠
      [.ambiguity_analysis, .structure_check, .quality_check,
       .business_value, .solution_bias, .acceptance_criteria] := by
  constructor <;> decide

/-- C1 (amended): every full pipeline run invokes the six stages strictly
sequentially in the order of `PIPELINE_STAGES` — ambiguity_analysis,
structure_check, quality_check, then acceptance_criteria fourth, then
business_value, then solution_bias last; the i-th stage invoked is the
i-th stage of this order. -/
theorem pipeline_stage_order (proxy : LLMProxyApi.LLMProxyOracle)
    (genId : StoryTypes.PipelineStage → Nat → String) (storyText : String)
    (ss : Option StoryTypes.StructuredStoryModel)
    (cs : List StoryTypes.ContextSnippet) :
    (LLMProxyApi.runFullPipeline proxy genId storyText ss cs).invokedStages =
      [.ambiguity_analysis, .structure_check, .quality_check,
       .acceptance_criteria, .business_value, .solution_bias] := by
  show (LLMProxyApi.runStages proxy genId storyText cs StoryTypes.PIPELINE_STAGES
      (LLMProxyApi.initRunState ss)).invokedStages = _
  rw [LLMProxyApi.runStages_invoked]
  rfl

-- ------------------------------------------------------------
-- C2
-- ------------------------------------------------------------

namespace LLMProxyApi

open StoryTypes

theorem runStageStep_fail {proxy : LLMProxyOracle} {s : PipelineStage} {e : String}
    (hf : ∀ req : StageRequest, req.operation = s → proxy req = .error e)
    (genId : PipelineStage → Nat → String) (t : String) (cs : List ContextSnippet)
    (st : RunState) :
    runStageStep proxy genId t cs st s =
      { st with
        invokedStages := st.invokedStages ++ [s]
        stages := st.stages ++ [failedStageRecord s e] } := by
  simp [runStageStep, runPipelineStage_error_of hf]

theorem runStageStep_stages_map (proxy : LLMProxyOracle)
    (genId : PipelineStage → Nat → String) (t : String) (cs : List ContextSnippet)
    (st : RunState) (s : PipelineStage) :
    ((runStageStep proxy genId t cs st s).stages).map (fun r => r.stage) =
      (st.stages).map (fun r => r.stage) ++ [s] := by
  cases h : runPipelineStage proxy (genId s) s t st.currentStructuredModel cs
      st.accumulatedResults with
  | error e => simp [runStageStep, h, failedStageRecord]
  | ok r =>
    have hs := runPipelineStage_ok_stage h
    simp [runStageStep, h, hs]

theorem runStages_stages_map (proxy : LLMProxyOracle)
    (genId : PipelineStage → Nat → String) (t : String) (cs : List ContextSnippet) :
    ∀ (l : List PipelineStage) (st : RunState),
      ((runStages proxy genId t cs l st).stages).map (fun r => r.stage) =
        (st.stages).map (fun r => r.stage) ++ l := by
  intro l
  induction l with
  | nil => intro st; simp [runStages]
  | cons s rest ih =>
    intro st
    rw [runStages, ih, runStageStep_stages_map]
    simp

theorem runStages_fail_inv {proxy : LLMProxyOracle} {s : PipelineStage} {e : String}
    (hf : ∀ req : StageRequest, req.operation = s → proxy req = .error e)
    (genId : PipelineStage → Nat → String) (t : String) (cs : List ContextSnippet) :
    ∀ (l : List PipelineStage) (st : RunState),
      (∀ r ∈ st.stages, r.stage = s → r = failedStageRecord s e) →
      ∀ r ∈ (runStages proxy genId t cs l st).stages, r.stage = s →
        r = failedStageRecord s e := by
  intro l
  induction l with
  | nil => intro st hinv; simpa [runStages] using hinv
  | cons x rest ih =>
    intro st hinv
    rw [runStages]
    apply ih
    intro r hr hrs
    by_cases hx : x = s
    · subst hx
      rw [runStageStep_fail hf] at hr
      simp only [List.mem_append, List.mem_singleton] at hr
      cases hr with
      | inl hold => exact hinv r hold hrs
      | inr hnew => exact hnew
    · cases hcall : runPipelineStage proxy (genId x) x t st.currentStructuredModel cs
          st.accumulatedResults with
      | ok res =>
        have hstage := runPipelineStage_ok_stage hcall
        simp only [runStageStep, hcall, List.mem_append, List.mem_singleton] at hr
        cases hr with
        | inl hold => exact hinv r hold hrs
        | inr hnew =>
          rw [hnew, hstage] at hrs
          exact absurd hrs hx
      | error e' =>
        simp only [runStageStep, hcall, List.mem_append, List.mem_singleton] at hr
        cases hr with
        | inl hold => exact hinv r hold hrs
        | inr hnew =>
          rw [hnew] at hrs
          simp only [failedStageRecord] at hrs
          exact absurd hrs hx

end LLMProxyApi

/-- C2: for every pipeline run over an oracle that throws on one stage's
requests, the runner records that stage's result as the failure record
(zero findings, zero duration, the error message behind the fixed
`Stage fehlgeschlagen:` prefix), continues with all remaining stages (the
invocation trace still lists all six), never throws (the runner is total
by construction), and the final result contains exactly one stage result
per stage, in order (6 of 6). -/
theorem pipeline_partial_failure (proxy : LLMProxyApi.LLMProxyOracle)
    (genId : StoryTypes.PipelineStage → Nat → String) (t : String)
    (ss : Option StoryTypes.StructuredStoryModel) (cs : List StoryTypes.ContextSnippet)
    (s : StoryTypes.PipelineStage) (e : String)
    (hf : ∀ req : LLMProxyApi.StageRequest, req.operation = s → proxy req = .error e) :
    (LLMProxyApi.runFullPipeline proxy genId t ss cs).result.stages.map (fun r => r.stage) =
      StoryTypes.PIPELINE_STAGES ∧
    LLMProxyApi.failedStageRecord s e ∈
      (LLMProxyApi.runFullPipeline proxy genId t ss cs).result.stages ∧
    (∀ r ∈ (LLMProxyApi.runFullPipeline proxy genId t ss cs).result.stages,
      r.stage = s → r = LLMProxyApi.failedStageRecord s e) ∧
    (LLMProxyApi.runFullPipeline proxy genId t ss cs).invokedStages =
      StoryTypes.PIPELINE_STAGES := by
  have hmap : (LLMProxyApi.runFullPipeline proxy genId t ss cs).result.stages.map
      (fun r => r.stage) = StoryTypes.PIPELINE_STAGES := by
    show ((LLMProxyApi.runStages proxy genId t cs StoryTypes.PIPELINE_STAGES
      (LLMProxyApi.initRunState ss)).stages).map _ = _
    rw [LLMProxyApi.runStages_stages_map]
    rfl
  have hinv : ∀ r ∈ (LLMProxyApi.runFullPipeline proxy genId t ss cs).result.stages,
      r.stage = s → r = LLMProxyApi.failedStageRecord s e := by
    show ∀ r ∈ (LLMProxyApi.runStages proxy genId t cs StoryTypes.PIPELINE_STAGES
      (LLMProxyApi.initRunState ss)).stages, _
    exact LLMProxyApi.runStages_fail_inv hf genId t cs StoryTypes.PIPELINE_STAGES
      (LLMProxyApi.initRunState ss) (by intro r hr; simp [LLMProxyApi.initRunState] at hr)
  refine ⟨hmap, ?_, hinv, ?_⟩
  · have hs : s ∈ StoryTypes.PIPELINE_STAGES := by
      cases s <;> simp [StoryTypes.PIPELINE_STAGES]
    rw [← hmap] at hs
    obtain ⟨r, hr, hrs⟩ := List.mem_map.1 hs
    rw [← hinv r hr hrs]
    exact hr
  · show (LLMProxyApi.runStages proxy genId t cs StoryTypes.PIPELINE_STAGES
      (LLMProxyApi.initRunState ss)).invokedStages = _
    rw [LLMProxyApi.runStages_invoked]
    rfl

/-- C2 witness: a concrete run whose oracle throws on structure_check —
the failure record for structure_check is among the six stage results and
all six stages are present in order. -/
theorem pipeline_partial_failure_witness :
    LLMProxyApi.failedStageRecord .structure_check "boom" ∈
      (LLMProxyApi.runFullPipeline (LLMProxyApi.failAt .structure_check "boom")
        LLMProxyApi.genId0 "story" none []).result.stages ∧
    (LLMProxyApi.runFullPipeline (LLMProxyApi.failAt .structure_check "boom")
        LLMProxyApi.genId0 "story" none []).result.stages.map (fun r => r.stage) =
      StoryTypes.PIPELINE_STAGES := by
  have hf : ∀ req : LLMProxyApi.StageRequest, req.operation = .structure_check →
      LLMProxyApi.failAt .structure_check "boom" req = .error "boom" := by
    intro req h
    simp [LLMProxyApi.failAt, h]
  have h := pipeline_partial_failure (LLMProxyApi.failAt .structure_check "boom")
    LLMProxyApi.genId0 "story" none [] .structure_check "boom" hf
  exact ⟨h.2.1, h.1⟩

-- ------------------------------------------------------------
-- C3
-- ------------------------------------------------------------

namespace LLMProxyApi

open StoryTypes

theorem foldl_score (issues : List QualityIssue) : ∀ a : Int,
    issues.foldl
      (fun score issue =>
        match issue.severity with
        | .critical => score - 20
        | .major => score - 10
        | .minor => score - 5
        | .info => score - 2) a
    = a - (issues.map severityPenalty).sum := by
  induction issues with
  | nil => intro a; simp
  | cons x xs ih =>
    intro a
    rw [List.foldl_cons, ih, List.map_cons, List.sum_cons]
    have hx : (match x.severity with
        | IssueSeverity.critical => a - 20
        | IssueSeverity.major => a - 10
        | IssueSeverity.minor => a - 5
        | IssueSeverity.info => a - 2) = a - severityPenalty x := by
      cases hsev : x.severity <;> simp [severityPenalty, hsev]
    rw [hx]
    ring

theorem sum_penalties (issues : List QualityIssue) :
    (issues.map severityPenalty).sum =
      (20 * (issues.countP fun i => i.severity == .critical) +
       10 * (issues.countP fun i => i.severity == .major) +
       5 * (issues.countP fun i => i.severity == .minor) +
       2 * (issues.countP fun i => i.severity == .info) : Int) := by
  induction issues with
  | nil => simp
  | cons x xs ih =>
    simp only [List.map_cons, List.sum_cons, List.countP_cons, ih]
    cases hsev : x.severity <;>
      · simp [severityPenalty, hsev]
        ring

theorem calculateScore_eq_spec (issues : List QualityIssue) :
    calculateScoreFromIssues issues = specDerivedScore issues := by
  unfold calculateScoreFromIssues specDerivedScore
  by_cases h : issues.isEmpty
  · have hnil : issues = [] := by
      cases issues with
      | nil => rfl
      | cons a l => simp at h
    subst hnil
    simp
  · simp only [h, if_false, Bool.false_eq_true]
    rw [foldl_score, sum_penalties]

theorem runStageStep_overallScore_ne {x : PipelineStage} (hx : x ≠ .quality_check)
    (proxy : LLMProxyOracle) (genId : PipelineStage → Nat → String) (t : String)
    (cs : List ContextSnippet) (st : RunState) :
    (runStageStep proxy genId t cs st x).overallScore = st.overallScore := by
  cases h : runPipelineStage proxy (genId x) x t st.currentStructuredModel cs
      st.accumulatedResults with
  | error e => simp [runStageStep, h]
  | ok r =>
    have hnone := runPipelineStage_ok_overallScore_ne hx h
    simp [runStageStep, h, hnone]

theorem runStages_overallScore_ne (proxy : LLMProxyOracle)
    (genId : PipelineStage → Nat → String) (t : String) (cs : List ContextSnippet) :
    ∀ (l : List PipelineStage), (∀ x ∈ l, x ≠ PipelineStage.quality_check) →
      ∀ st : RunState, (runStages proxy genId t cs l st).overallScore = st.overallScore := by
  intro l
  induction l with
  | nil => intro _ st; simp [runStages]
  | cons x rest ih =>
    intro hl st
    rw [runStages, ih (fun y hy => hl y (List.mem_cons_of_mem x hy)),
      runStageStep_overallScore_ne (hl x (List.mem_cons_self x rest))]

theorem runStageStep_quality_of {proxy : LLMProxyOracle} {qresp : RawStageResponse} {d : Nat}
    (hq : ∀ req : StageRequest, req.operation = .quality_check → proxy req = .ok (qresp, d))
    (genId : PipelineStage → Nat → String) (t : String) (cs : List ContextSnippet)
    (st : RunState) :
    (runStageStep proxy genId t cs st .quality_check).overallScore =
      (match qresp.overallScore with
        | some v => v
        | none => st.overallScore) := by
  have h := runPipelineStage_ok_of hq (genId .quality_check) t st.currentStructuredModel cs
    st.accumulatedResults
  cases hsc : qresp.overallScore with
  | some v => simp [runStageStep, h, mkStageResult, hsc]
  | none => simp [runStageStep, h, mkStageResult, hsc]

theorem runStages_append (proxy : LLMProxyOracle) (genId : PipelineStage → Nat → String)
    (t : String) (cs : List ContextSnippet) :
    ∀ (l1 l2 : List PipelineStage) (st : RunState),
      runStages proxy genId t cs (l1 ++ l2) st =
        runStages proxy genId t cs l2 (runStages proxy genId t cs l1 st) := by
  intro l1
  induction l1 with
  | nil => intro l2 st; rfl
  | cons x rest ih =>
    intro l2 st
    rw [List.cons_append, runStages, runStages, ih]

end LLMProxyApi

/-- C3 counterexample: the claim says the quality_check score is adopted
"including 0"; on a run whose quality_check reports the score 0 (and no
stage reports findings) the returned overallScore is the derived 100, not
0 — `overallScore || calculateScoreFromIssues(...)` treats 0 as absent. -/
theorem overall_score_zero_cex :
    ((LLMProxyApi.runFullPipeline (LLMProxyApi.scoreAt (some 0)) LLMProxyApi.genId0
        "s" none []).result.stages.find? (fun r => r.stage == .quality_check)).map
      (fun r => r.overallScore) = some (some 0) ∧
    (LLMProxyApi.runFullPipeline (LLMProxyApi.scoreAt (some 0)) LLMProxyApi.genId0
        "s" none []).result.overallScore = 100 := by
  constructor <;> decide

/-- C3 (amended): for every pipeline run whose quality_check request is
answered with a response `qresp`, the returned overallScore equals the
score reported by quality_check whenever that score is present and
nonzero; when quality_check supplied no score or the score 0, the result
is derived from the aggregated findings as 100 minus 20 per critical, 10
per major, 5 per minor and 2 per info finding, floored at 0
(`specDerivedScore`, which the embedded `calculateScoreFromIssues`
provably equals). -/
theorem overall_score_amended (proxy : LLMProxyApi.LLMProxyOracle)
    (genId : StoryTypes.PipelineStage → Nat → String) (t : String)
    (ss : Option StoryTypes.StructuredStoryModel) (cs : List StoryTypes.ContextSnippet)
    (qresp : LLMProxyApi.RawStageResponse) (d : Nat)
    (hq : ∀ req : LLMProxyApi.StageRequest, req.operation = .quality_check →
      proxy req = .ok (qresp, d)) :
    (∀ sc : Int, qresp.overallScore = some sc → sc ≠ 0 →
      (LLMProxyApi.runFullPipeline proxy genId t ss cs).result.overallScore = sc) ∧
    ((qresp.overallScore = none ∨ qresp.overallScore = some 0) →
      (LLMProxyApi.runFullPipeline proxy genId t ss cs).result.overallScore =
        LLMProxyApi.specDerivedScore
          (LLMProxyApi.runFullPipeline proxy genId t ss cs).result.allIssues) := by
  have hdec : LLMProxyApi.runStages proxy genId t cs StoryTypes.PIPELINE_STAGES
      (LLMProxyApi.initRunState ss) =
      LLMProxyApi.runStages proxy genId t cs
        [.acceptance_criteria, .business_value, .solution_bias]
        (LLMProxyApi.runStageStep proxy genId t cs
          (LLMProxyApi.runStages proxy genId t cs
            [.ambiguity_analysis, .structure_check] (LLMProxyApi.initRunState ss))
          .quality_check) := by
    rw [show StoryTypes.PIPELINE_STAGES =
        ([.ambiguity_analysis, .structure_check] ++ [.quality_check]) ++
          [.acceptance_criteria, .business_value, .solution_bias] from rfl]
    rw [LLMProxyApi.runStages_append, LLMProxyApi.runStages_append]
    rfl
  have h2 : (LLMProxyApi.runStages proxy genId t cs
      [.ambiguity_analysis, .structure_check]
      (LLMProxyApi.initRunState ss)).overallScore = 0 := by
    rw [LLMProxyApi.runStages_overallScore_ne proxy genId t cs _ (by decide)]
    rfl
  have h3 := LLMProxyApi.runStageStep_quality_of hq genId t cs
    (LLMProxyApi.runStages proxy genId t cs [.ambiguity_analysis, .structure_check]
      (LLMProxyApi.initRunState ss))
  have h6 : (LLMProxyApi.runStages proxy genId t cs
      [.acceptance_criteria, .business_value, .solution_bias]
      (LLMProxyApi.runStageStep proxy genId t cs
        (LLMProxyApi.runStages proxy genId t cs [.ambiguity_analysis, .structure_check]
          (LLMProxyApi.initRunState ss)) .quality_check)).overallScore =
      (LLMProxyApi.runStageStep proxy genId t cs
        (LLMProxyApi.runStages proxy genId t cs [.ambiguity_analysis, .structure_check]
          (LLMProxyApi.initRunState ss)) .quality_check).overallScore :=
    LLMProxyApi.runStages_overallScore_ne proxy genId t cs _ (by decide) _
  have hscore : (LLMProxyApi.runFullPipeline proxy genId t ss cs).result.overallScore =
      (if (LLMProxyApi.runStages proxy genId t cs StoryTypes.PIPELINE_STAGES
          (LLMProxyApi.initRunState ss)).overallScore ≠ 0 then
        (LLMProxyApi.runStages proxy genId t cs StoryTypes.PIPELINE_STAGES
          (LLMProxyApi.initRunState ss)).overallScore
      else LLMProxyApi.calculateScoreFromIssues
        (LLMProxyApi.runStages proxy genId t cs StoryTypes.PIPELINE_STAGES
          (LLMProxyApi.initRunState ss)).allIssues) := rfl
  have hissues : (LLMProxyApi.runFullPipeline proxy genId t ss cs).result.allIssues =
      (LLMProxyApi.runStages proxy genId t cs StoryTypes.PIPELINE_STAGES
        (LLMProxyApi.initRunState ss)).allIssues := rfl
  constructor
  · intro sc hsc hne
    have hval : (LLMProxyApi.runStages proxy genId t cs StoryTypes.PIPELINE_STAGES
        (LLMProxyApi.initRunState ss)).overallScore = sc := by
      rw [hdec, h6, h3, hsc]
    rw [hscore, hval, if_pos hne]
  · intro hsc
    have hval : (LLMProxyApi.runStages proxy genId t cs StoryTypes.PIPELINE_STAGES
        (LLMProxyApi.initRunState ss)).overallScore = 0 := by
      cases hsc with
      | inl h => rw [hdec, h6, h3, h]; exact h2
      | inr h => rw [hdec, h6, h3, h]
    rw [hscore, hval]
    simp only [ne_eq, not_true_eq_false, if_false]
    rw [LLMProxyApi.calculateScore_eq_spec, hissues]

/-- C3 witness: on a run whose quality_check reports the nonzero score 55,
the returned overallScore is 55. -/
theorem overall_score_amended_witness :
    (LLMProxyApi.runFullPipeline (LLMProxyApi.scoreAt (some 55)) LLMProxyApi.genId0
      "s" none []).result.overallScore = 55 := by
  have hq : ∀ req : LLMProxyApi.StageRequest, req.operation = .quality_check →
      LLMProxyApi.scoreAt (some 55) req =
        .ok ({ LLMProxyApi.emptyResp with overallScore := some 55 }, 1) := by
    intro req h
    simp [LLMProxyApi.scoreAt, h]
  exact (overall_score_amended (LLMProxyApi.scoreAt (some 55)) LLMProxyApi.genId0
    "s" none [] _ 1 hq).1 55 rfl (by decide)

-- ------------------------------------------------------------
-- C6
-- ------------------------------------------------------------

namespace LLMProxyApi

open StoryTypes

theorem runPipelineStage_ok_exists {proxy : LLMProxyOracle} {s x : PipelineStage}
    (hok : ∀ req : StageRequest, req.operation ≠ s → ∃ out, proxy req = .ok out)
    (hx : x ≠ s) (genId : Nat → String) (t : String)
    (ss : Option StructuredStoryModel) (cs : List ContextSnippet)
    (prev : List (PipelineStage × AccumEntry)) :
    ∃ resp dur, runPipelineStage proxy genId x t ss cs prev =
      .ok (mkStageResult genId x resp dur) := by
  obtain ⟨out, hout⟩ := hok
    { operation := x
      storyText := t
      structuredStory := ss.map fun m =>
        { role := m.role, goal := m.goal, benefit := m.benefit, constraints := m.constraints }
      context := buildContextString cs none
      previousResults := prev } hx
  obtain ⟨resp, dur⟩ := out
  refine ⟨resp, dur, ?_⟩
  unfold runPipelineStage
  rw [hout]

theorem runStages_callback_map {proxy : LLMProxyOracle} {s : PipelineStage} {e : String}
    (hfail : ∀ req : StageRequest, req.operation = s → proxy req = .error e)
    (hok : ∀ req : StageRequest, req.operation ≠ s → ∃ out, proxy req = .ok out)
    (genId : PipelineStage → Nat → String) (t : String) (cs : List ContextSnippet) :
    ∀ (l : List PipelineStage) (st : RunState),
      (runStages proxy genId t cs l st).callbackTrace.map Prod.fst =
        st.callbackTrace.map Prod.fst ++ l.filter (fun x => x != s) := by
  intro l
  induction l with
  | nil => intro st; simp [runStages]
  | cons x rest ih =>
    intro st
    rw [runStages, ih]
    by_cases hx : x = s
    · subst hx
      rw [runStageStep_fail hfail]
      simp [List.filter_cons]
    · obtain ⟨resp, dur, hcall⟩ :=
        runPipelineStage_ok_exists hok hx (genId x) t st.currentStructuredModel cs
          st.accumulatedResults
      simp [runStageStep, hcall, List.filter_cons, hx]

theorem runStages_callback_sub (proxy : LLMProxyOracle)
    (genId : PipelineStage → Nat → String) (t : String) (cs : List ContextSnippet) :
    ∀ (l : List PipelineStage) (st : RunState),
      (∀ pr ∈ st.callbackTrace, pr.2 ∈ st.stages) →
      ∀ pr ∈ (runStages proxy genId t cs l st).callbackTrace,
        pr.2 ∈ (runStages proxy genId t cs l st).stages := by
  intro l
  induction l with
  | nil => intro st hinv; simpa [runStages] using hinv
  | cons x rest ih =>
    intro st hinv
    rw [runStages]
    apply ih
    intro pr hpr
    cases hcall : runPipelineStage proxy (genId x) x t st.currentStructuredModel cs
        st.accumulatedResults with
    | ok res =>
      simp only [runStageStep, hcall, List.mem_append, List.mem_singleton] at hpr ⊢
      cases hpr with
      | inl hold => exact Or.inl (hinv pr hold)
      | inr hnew => exact Or.inr (by rw [hnew])
    | error e' =>
      simp only [runStageStep, hcall, List.mem_append, List.mem_singleton] at hpr ⊢
      exact Or.inl (hinv pr hpr)

end LLMProxyApi

/-- C6 counterexample: the claim says the progress callback fires exactly
once after each of the six stages, also when a stage fails; on a run whose
quality_check invocation throws, all six stages are invoked but the
callback fires only five times, and not for quality_check. -/
theorem callback_per_stage_cex :
    (LLMProxyApi.runFullPipeline (LLMProxyApi.failAt .quality_check "down")
        LLMProxyApi.genId0 "s" none []).callbackTrace.map Prod.fst =
      [.ambiguity_analysis, .structure_check, .acceptance_criteria,
       .business_value, .solution_bias] ∧
    (LLMProxyApi.runFullPipeline (LLMProxyApi.failAt .quality_check "down")
        LLMProxyApi.genId0 "s" none []).invokedStages = StoryTypes.PIPELINE_STAGES ∧
    ((LLMProxyApi.runFullPipeline (LLMProxyApi.failAt .quality_check "down")
        LLMProxyApi.genId0 "s" none []).callbackTrace.map Prod.fst).length = 5 := by
  refine ⟨?_, ?_, ?_⟩ <;> decide

namespace LLMProxyApi

open StoryTypes

theorem runStageStepObs_eq {σ : Type} (proxy : LLMProxyOracle)
    (genId : PipelineStage → Nat → String) (t : String) (cs : List ContextSnippet)
    (cb : σ → PipelineStage → PipelineStageResultData → σ)
    (st : RunState) (obs0 : σ) (stage : PipelineStage) :
    runStageStepObs proxy genId t cs cb st
        (st.callbackTrace.foldl (fun acc pr => cb acc pr.1 pr.2) obs0) stage =
      (runStageStep proxy genId t cs st stage,
       ((runStageStep proxy genId t cs st stage).callbackTrace).foldl
         (fun acc pr => cb acc pr.1 pr.2) obs0) := by
  cases h : runPipelineStage proxy (genId stage) stage t st.currentStructuredModel cs
      st.accumulatedResults with
  | ok result => simp [runStageStepObs, runStageStep, h, List.foldl_append]
  | error e => simp [runStageStepObs, runStageStep, h]

theorem runStagesObs_eq {σ : Type} (proxy : LLMProxyOracle)
    (genId : PipelineStage → Nat → String) (t : String) (cs : List ContextSnippet)
    (cb : σ → PipelineStage → PipelineStageResultData → σ) :
    ∀ (l : List PipelineStage) (st : RunState) (obs0 : σ),
      runStagesObs proxy genId t cs cb l st
          (st.callbackTrace.foldl (fun acc pr => cb acc pr.1 pr.2) obs0) =
        (runStages proxy genId t cs l st,
         ((runStages proxy genId t cs l st).callbackTrace).foldl
           (fun acc pr => cb acc pr.1 pr.2) obs0) := by
  intro l
  induction l with
  | nil => intro st obs0; simp [runStagesObs, runStages]
  | cons stage rest ih =>
    intro st obs0
    simp only [runStagesObs]
    rw [runStageStepObs_eq]
    rw [runStages]
    exact ih (runStageStep proxy genId t cs st stage) obs0

theorem runFullPipelineObs_run {σ : Type} (proxy : LLMProxyOracle)
    (genId : PipelineStage → Nat → String) (t : String)
    (ss : Option StructuredStoryModel) (cs : List ContextSnippet)
    (cb : σ → PipelineStage → PipelineStageResultData → σ) (s0 : σ) :
    runFullPipelineObs proxy genId t ss cs cb s0 =
      (runFullPipeline proxy genId t ss cs,
       ((runFullPipeline proxy genId t ss cs).callbackTrace).foldl
         (fun acc pr => cb acc pr.1 pr.2) s0) := by
  have h : runStagesObs proxy genId t cs cb PIPELINE_STAGES (initRunState ss) s0 =
      (runStages proxy genId t cs PIPELINE_STAGES (initRunState ss),
       ((runStages proxy genId t cs PIPELINE_STAGES (initRunState ss)).callbackTrace).foldl
         (fun acc pr => cb acc pr.1 pr.2) s0) :=
    runStagesObs_eq proxy genId t cs cb PIPELINE_STAGES (initRunState ss) s0
  unfold runFullPipelineObs runFullPipeline
  rw [h]

end LLMProxyApi

/-- C6 (amended): the `onStageComplete` callback is invoked exactly once
after each stage that completes successfully, in stage order, with that
stage's result (every invocation's payload is one of the returned stage
results); a failed stage triggers no invocation; and invoking it does not
change which stages run or what the run returns — for every callback
(modelled as an arbitrary state-carrying observer, since its return value
is ignored) the run with the callback equals the callback-free run, the
observer having been applied exactly once per trace entry, in order.
Stated for an oracle that throws on one stage's requests and answers all
others. -/
theorem callback_trace (proxy : LLMProxyApi.LLMProxyOracle)
    (genId : StoryTypes.PipelineStage → Nat → String) (t : String)
    (ss : Option StoryTypes.StructuredStoryModel) (cs : List StoryTypes.ContextSnippet)
    (s : StoryTypes.PipelineStage) (e : String)
    (hfail : ∀ req : LLMProxyApi.StageRequest, req.operation = s → proxy req = .error e)
    (hok : ∀ req : LLMProxyApi.StageRequest, req.operation ≠ s → ∃ out, proxy req = .ok out) :
    (LLMProxyApi.runFullPipeline proxy genId t ss cs).callbackTrace.map Prod.fst =
      StoryTypes.PIPELINE_STAGES.filter (fun x => x != s) ∧
    (∀ pr ∈ (LLMProxyApi.runFullPipeline proxy genId t ss cs).callbackTrace,
      pr.2 ∈ (LLMProxyApi.runFullPipeline proxy genId t ss cs).result.stages) ∧
    (∀ (σ : Type) (cb : σ → StoryTypes.PipelineStage →
          LLMProxyApi.PipelineStageResultData → σ) (s0 : σ),
      LLMProxyApi.runFullPipelineObs proxy genId t ss cs cb s0 =
        (LLMProxyApi.runFullPipeline proxy genId t ss cs,
         ((LLMProxyApi.runFullPipeline proxy genId t ss cs).callbackTrace).foldl
           (fun acc pr => cb acc pr.1 pr.2) s0)) := by
  refine ⟨?_, ?_, ?_⟩
  · show (LLMProxyApi.runStages proxy genId t cs StoryTypes.PIPELINE_STAGES
      (LLMProxyApi.initRunState ss)).callbackTrace.map Prod.fst = _
    rw [LLMProxyApi.runStages_callback_map hfail hok]
    rfl
  · show ∀ pr ∈ (LLMProxyApi.runStages proxy genId t cs StoryTypes.PIPELINE_STAGES
      (LLMProxyApi.initRunState ss)).callbackTrace, _
    exact LLMProxyApi.runStages_callback_sub proxy genId t cs StoryTypes.PIPELINE_STAGES
      (LLMProxyApi.initRunState ss)
      (by intro pr hpr; simp [LLMProxyApi.initRunState] at hpr)
  · intro σ cb s0
    exact LLMProxyApi.runFullPipelineObs_run proxy genId t ss cs cb s0

/-- C6 witness: on a concrete run whose business_value invocation throws,
the callback trace lists exactly the five successful stages. -/
theorem callback_trace_witness :
    (LLMProxyApi.runFullPipeline (LLMProxyApi.failAt .business_value "x")
        LLMProxyApi.genId0 "s" none []).callbackTrace.map Prod.fst =
      StoryTypes.PIPELINE_STAGES.filter (fun y => y != .business_value) := by
  have hfail : ∀ req : LLMProxyApi.StageRequest, req.operation = .business_value →
      LLMProxyApi.failAt .business_value "x" req = .error "x" := by
    intro req h
    simp [LLMProxyApi.failAt, h]
  have hok : ∀ req : LLMProxyApi.StageRequest, req.operation ≠ .business_value →
      ∃ out, LLMProxyApi.failAt .business_value "x" req = .ok out := by
    intro req h
    exact ⟨(LLMProxyApi.emptyResp, 3), by simp [LLMProxyApi.failAt, h]⟩
  exact (callback_trace (LLMProxyApi.failAt .business_value "x") LLMProxyApi.genId0
    "s" none [] .business_value "x" hfail hok).1

-- ------------------------------------------------------------
-- C4
-- ------------------------------------------------------------

theorem jsIsArray_iff (o : Option Json) :
    jsIsArray o = true ↔ ∃ xs, o = some (Json.arr xs) := by
  cases o with
  | none => simp [jsIsArray]
  | some v => cases v <;> simp [jsIsArray]

theorem jsIsNonemptyArray_iff (o : Option Json) :
    jsIsNonemptyArray o = true ↔ ∃ xs, o = some (Json.arr xs) ∧ xs ≠ [] := by
  cases o with
  | none => simp [jsIsNonemptyArray]
  | some v =>
    cases v <;> simp [jsIsNonemptyArray]
    case arr xs => exact List.length_pos

theorem validate_stage_eq :
    ∀ op ∈ ([.ambiguity_analysis, .structure_check, .quality_check,
        .business_value, .solution_bias] : List ProxyPipeline.Operation),
      ∀ j : Json, ProxyPipeline.validateResponse op j = jsIsArray (jsGet j "issues") := by
  intro op hop j
  fin_cases hop <;> cases j <;> rfl

theorem validate_ac_eq (j : Json) :
    ProxyPipeline.validateResponse .acceptance_criteria j = jsIsArray (jsGet j "criteria") := by
  cases j <;> rfl

theorem validate_rw_eq (j : Json) :
    ProxyPipeline.validateResponse .rewrite j = jsIsNonemptyArray (jsGet j "candidates") := by
  cases j <;> rfl

theorem validate_legacy_rw_eq (j : Json) :
    ProxyLegacy.validateResponse .rewrite j = jsIsNonemptyArray (jsGet j "candidates") := by
  cases j <;> rfl

theorem validate_legacy_ac_eq (j : Json) :
    ProxyLegacy.validateResponse .acceptance_criteria j =
      jsIsNonemptyArray (jsGet j "criteria") := by
  cases j <;> rfl

/-- C4 counterexample: the pipeline proxy accepts an acceptance_criteria
response whose `criteria` field is the empty array — the claimed
"non-empty array field criteria" contract does not hold for the proxy
snapshot that has stage operations. -/
theorem validate_criteria_nonempty_cex :
    ProxyPipeline.validateResponse .acceptance_criteria
        (Json.obj [("criteria", Json.arr [])]) = true ∧
    jsGet (Json.obj [("criteria", Json.arr [])]) "criteria" = some (Json.arr []) ∧
    ¬ (ProxyPipeline.validateResponse .acceptance_criteria
          (Json.obj [("criteria", Json.arr [])]) = true ↔
        ∃ xs, jsGet (Json.obj [("criteria", Json.arr [])]) "criteria" =
            some (Json.arr xs) ∧ xs ≠ []) := by
  refine ⟨rfl, rfl, ?_⟩
  intro hiff
  obtain ⟨xs, hx, hne⟩ := hiff.1 rfl
  have h0 : jsGet (Json.obj [("criteria", Json.arr [])]) "criteria" =
      some (Json.arr []) := rfl
  rw [h0] at hx
  injection hx with h1
  injection h1 with h2
  exact hne h2.symm

/-- C4 (amended): the proxy's response validation is exactly the
per-operation structural contract — in the pipeline proxy every stage
operation is accepted iff the response carries an array field `issues`,
acceptance_criteria iff it carries an array field `criteria` (emptiness
allowed), and rewrite iff it carries a non-empty array field `candidates`;
in the legacy proxy rewrite and acceptance_criteria both require a
non-empty array.  No semantic content is checked: acceptance depends only
on the presence and array-ness (and for the non-empty cases, length) of
the one field. -/
theorem validate_structural_contract :
    (∀ op ∈ ([.ambiguity_analysis, .structure_check, .quality_check,
        .business_value, .solution_bias] : List ProxyPipeline.Operation),
      ∀ j : Json, ProxyPipeline.validateResponse op j = true ↔
        ∃ xs, jsGet j "issues" = some (Json.arr xs)) ∧
    (∀ j : Json, ProxyPipeline.validateResponse .acceptance_criteria j = true ↔
      ∃ xs, jsGet j "criteria" = some (Json.arr xs)) ∧
    (∀ j : Json, ProxyPipeline.validateResponse .rewrite j = true ↔
      ∃ xs, jsGet j "candidates" = some (Json.arr xs) ∧ xs ≠ []) ∧
    (∀ j : Json, ProxyLegacy.validateResponse .rewrite j = true ↔
      ∃ xs, jsGet j "candidates" = some (Json.arr xs) ∧ xs ≠ []) ∧
    (∀ j : Json, ProxyLegacy.validateResponse .acceptance_criteria j = true ↔
      ∃ xs, jsGet j "criteria" = some (Json.arr xs) ∧ xs ≠ []) := by
  refine ⟨?_, ?_, ?_, ?_, ?_⟩
  · intro op hop j
    rw [validate_stage_eq op hop j]
    exact jsIsArray_iff _
  · intro j
    rw [validate_ac_eq j]
    exact jsIsArray_iff _
  · intro j
    rw [validate_rw_eq j]
    exact jsIsNonemptyArray_iff _
  · intro j
    rw [validate_legacy_rw_eq j]
    exact jsIsNonemptyArray_iff _
  · intro j
    rw [validate_legacy_ac_eq j]
    exact jsIsNonemptyArray_iff _

/-- C4 witness: concrete instances of the contract — a stage response with
an (empty) issues array is accepted, and a rewrite response with an empty
candidates array is rejected. -/
theorem validate_structural_contract_witness :
    ProxyPipeline.validateResponse .quality_check
        (Json.obj [("issues", Json.arr [])]) = true ∧
    ProxyPipeline.validateResponse .rewrite
        (Json.obj [("candidates", Json.arr [])]) ≠ true :=
  ⟨(validate_structural_contract.1 .quality_check (by simp) _).2 ⟨[], rfl⟩,
   fun h => by
    obtain ⟨xs, hx, hne⟩ := (validate_structural_contract.2.2.1 _).1 h
    have h0 : jsGet (Json.obj [("candidates", Json.arr [])]) "candidates" =
        some (Json.arr []) := rfl
    rw [h0] at hx
    injection hx with h1
    injection h1 with h2
    exact hne h2.symm⟩

-- ------------------------------------------------------------
-- C5
-- ------------------------------------------------------------

/-- C5: for every request whose first engine call fails (transport or
shape validation), the proxy retries exactly once, sending the original
user prompt extended by the literal respond-only-with-valid-JSON suffix;
if the retry also fails validation or transport, the handling ends in an
error response (never a success); and no request ever performs more than
two engine calls. -/
theorem serve_retries_exactly_once (llm : ProxyPipeline.LLMOracle)
    (op : ProxyPipeline.Operation) (p : String) :
    (ProxyPipeline.serveAttempts llm op p).2.length ≤ 2 ∧
    (ProxyPipeline.callFails llm op p →
      (ProxyPipeline.serveAttempts llm op p).2 = [p, p ++ ProxyPipeline.RETRY_SUFFIX] ∧
      (ProxyPipeline.callFails llm op (p ++ ProxyPipeline.RETRY_SUFFIX) →
        ∀ d, (ProxyPipeline.serveAttempts llm op p).1 ≠ .success d)) := by
  cases h1 : llm p with
  | error e =>
    refine ⟨by simp [ProxyPipeline.serveAttempts, h1], fun _ => ⟨?_, ?_⟩⟩
    · simp [ProxyPipeline.serveAttempts, h1]
    · intro h2 d
      rcases h2 with ⟨e2, he2⟩ | ⟨r2, hr2, hv2⟩
      · simp [ProxyPipeline.serveAttempts, h1, ProxyPipeline.retryAttempt, he2]
      · simp [ProxyPipeline.serveAttempts, h1, ProxyPipeline.retryAttempt, hr2, hv2]
  | ok r =>
    cases hv : ProxyPipeline.validateResponse op r with
    | true =>
      refine ⟨by simp [ProxyPipeline.serveAttempts, h1, hv], fun hcf => absurd hcf ?_⟩
      rintro (⟨e2, he2⟩ | ⟨r2, hr2, hv2⟩)
      · rw [h1] at he2
        exact absurd he2 (by simp)
      · rw [h1] at hr2
        injection hr2 with hr2'
        rw [← hr2', hv] at hv2
        exact absurd hv2 (by simp)
    | false =>
      refine ⟨by simp [ProxyPipeline.serveAttempts, h1, hv], fun _ => ⟨?_, ?_⟩⟩
      · simp [ProxyPipeline.serveAttempts, h1, hv]
      · intro h2 d
        rcases h2 with ⟨e2, he2⟩ | ⟨r2, hr2, hv2⟩
        · simp [ProxyPipeline.serveAttempts, h1, hv, ProxyPipeline.retryAttempt, he2]
        · simp [ProxyPipeline.serveAttempts, h1, hv, ProxyPipeline.retryAttempt, hr2, hv2]

/-- C5 witness: a concrete engine whose first call throws — the proxy
sends exactly the original prompt and then the suffixed retry prompt. -/
theorem serve_retries_exactly_once_witness :
    ProxyPipeline.callFails ProxyPipeline.llmFailThenOk .quality_check "P" ∧
    (ProxyPipeline.serveAttempts ProxyPipeline.llmFailThenOk .quality_check "P").2 =
      ["P", "P" ++ ProxyPipeline.RETRY_SUFFIX] := by
  have hcf : ProxyPipeline.callFails ProxyPipeline.llmFailThenOk .quality_check "P" :=
    Or.inl ⟨"timeout", rfl⟩
  exact ⟨hcf,
    ((serve_retries_exactly_once ProxyPipeline.llmFailThenOk .quality_check "P").2 hcf).1⟩

-- ------------------------------------------------------------
-- C7 / C8
-- ------------------------------------------------------------

namespace StoryWizardProvider

open StoryTypes

theorem find?_of_exists {α : Type} {p : α → Bool} {l : List α}
    (h : ∃ c ∈ l, p c = true) : ∃ c, l.find? p = some c := by
  have hs : (l.find? p).isSome := List.find?_isSome.2 (by
    obtain ⟨c, hc, hp⟩ := h
    exact ⟨c, hc, hp⟩)
  exact Option.isSome_iff_exists.mp hs

theorem acceptRewrite_userDecisions {s : StoryState} {id : String} {cand : RewriteSuggestion}
    (hfind : s.rewriteCandidates.find? (fun c => c.id == id) = some cand)
    (et : Option String) (did da ts : String) :
    (acceptRewrite s id et did da ts).userDecisions =
      s.userDecisions ++
        [{ id := did
           targetType := .rewrite
           targetId := id
           decision := if jsTruthyStr et then .edited else .accepted
           originalValue := cand.suggestedText
           editedValue := et
           reason := none
           timestamp := ts }] := by
  simp [acceptRewrite, hfind, storyReducer]

theorem acceptRewrite_candidates {s : StoryState} {id : String} {cand : RewriteSuggestion}
    (hfind : s.rewriteCandidates.find? (fun c => c.id == id) = some cand)
    (et : Option String) (did da ts : String) :
    (acceptRewrite s id et did da ts).rewriteCandidates =
      s.rewriteCandidates.map fun c =>
        if c.id = id then
          applyRewriteUpdate c
            { status := some (if jsTruthyStr et then .edited else .accepted)
              editedText := some et
              decidedAt := some da }
        else c := by
  simp [acceptRewrite, hfind, storyReducer]

theorem rejectRewrite_userDecisions {s : StoryState} {id : String} {cand : RewriteSuggestion}
    (hfind : s.rewriteCandidates.find? (fun c => c.id == id) = some cand)
    (did da ts : String) :
    (rejectRewrite s id did da ts).userDecisions =
      s.userDecisions ++
        [{ id := did
           targetType := .rewrite
           targetId := id
           decision := .rejected
           originalValue := cand.suggestedText
           editedValue := none
           reason := none
           timestamp := ts }] := by
  simp [rejectRewrite, hfind, storyReducer]

theorem acceptCriterion_userDecisions {s : StoryState} {id : String}
    {crit : AcceptanceCriterionItem}
    (hfind : s.acceptanceCriteria.find? (fun c => c.id == id) = some crit)
    (ec : Option CriterionEdit) (did da ts : String) :
    (acceptCriterion s id ec did da ts).userDecisions =
      s.userDecisions ++
        [{ id := did
           targetType := .criterion
           targetId := id
           decision := if ec.isSome then .edited else .accepted
           originalValue := criterionSnapshot crit.given crit.whenClause crit.thenClause
           editedValue := match ec with
             | some e => some (criterionSnapshot
                 (jsOrString e.given crit.given)
                 (jsOrString e.whenClause crit.whenClause)
                 (jsOrString e.thenClause crit.thenClause))
             | none => none
           reason := none
           timestamp := ts }] := by
  simp [acceptCriterion, hfind, storyReducer]

theorem rejectCriterion_userDecisions {s : StoryState} {id : String}
    {crit : AcceptanceCriterionItem}
    (hfind : s.acceptanceCriteria.find? (fun c => c.id == id) = some crit)
    (did da ts : String) :
    (rejectCriterion s id did da ts).userDecisions =
      s.userDecisions ++
        [{ id := did
           targetType := .criterion
           targetId := id
           decision := .rejected
           originalValue := criterionSnapshot crit.given crit.whenClause crit.thenClause
           editedValue := none
           reason := none
           timestamp := ts }] := by
  simp [rejectCriterion, hfind, storyReducer]

theorem applyRewriteUpdate_id (c : RewriteSuggestion) (u : RewriteUpdate) :
    (applyRewriteUpdate c u).id = c.id := rfl

end StoryWizardProvider

/-- C7: every decision operation on an existing target appends exactly one
Decision record to the decision list (the rest of the list is the previous
list, unchanged), and re-deciding the same target appends a further
record: acceptRewrite then rejectRewrite on the same id yields the
previous list extended by exactly two records, the first untouched by the
second call. -/
theorem decision_append_only :
    (∀ (s : StoryWizardProvider.StoryState) (id : String) (et : Option String)
        (did da ts : String),
      (∃ c ∈ s.rewriteCandidates, c.id = id) →
      ∃ d, (StoryWizardProvider.acceptRewrite s id et did da ts).userDecisions =
        s.userDecisions ++ [d]) ∧
    (∀ (s : StoryWizardProvider.StoryState) (id : String) (did da ts : String),
      (∃ c ∈ s.rewriteCandidates, c.id = id) →
      ∃ d, (StoryWizardProvider.rejectRewrite s id did da ts).userDecisions =
        s.userDecisions ++ [d]) ∧
    (∀ (s : StoryWizardProvider.StoryState) (id : String)
        (ec : Option StoryTypes.CriterionEdit) (did da ts : String),
      (∃ c ∈ s.acceptanceCriteria, c.id = id) →
      ∃ d, (StoryWizardProvider.acceptCriterion s id ec did da ts).userDecisions =
        s.userDecisions ++ [d]) ∧
    (∀ (s : StoryWizardProvider.StoryState) (id : String) (did da ts : String),
      (∃ c ∈ s.acceptanceCriteria, c.id = id) →
      ∃ d, (StoryWizardProvider.rejectCriterion s id did da ts).userDecisions =
        s.userDecisions ++ [d]) ∧
    (∀ (s : StoryWizardProvider.StoryState) (id : String) (et : Option String)
        (did1 da1 ts1 did2 da2 ts2 : String),
      (∃ c ∈ s.rewriteCandidates, c.id = id) →
      ∃ d1 d2,
        (StoryWizardProvider.rejectRewrite
            (StoryWizardProvider.acceptRewrite s id et did1 da1 ts1) id did2 da2 ts2
          ).userDecisions = s.userDecisions ++ [d1, d2]) := by
  have hfind : ∀ {α : Type} (l : List α) (p : α → Bool),
      (∃ c ∈ l, p c = true) → ∃ c, l.find? p = some c :=
    fun l p h => StoryWizardProvider.find?_of_exists h
  refine ⟨?_, ?_, ?_, ?_, ?_⟩
  · intro s id et did da ts h
    obtain ⟨cand, hf⟩ := hfind s.rewriteCandidates (fun c => c.id == id)
      (by obtain ⟨c, hc, he⟩ := h; exact ⟨c, hc, by simp [he]⟩)
    exact ⟨_, StoryWizardProvider.acceptRewrite_userDecisions hf et did da ts⟩
  · intro s id did da ts h
    obtain ⟨cand, hf⟩ := hfind s.rewriteCandidates (fun c => c.id == id)
      (by obtain ⟨c, hc, he⟩ := h; exact ⟨c, hc, by simp [he]⟩)
    exact ⟨_, StoryWizardProvider.rejectRewrite_userDecisions hf did da ts⟩
  · intro s id ec did da ts h
    obtain ⟨crit, hf⟩ := hfind s.acceptanceCriteria (fun c => c.id == id)
      (by obtain ⟨c, hc, he⟩ := h; exact ⟨c, hc, by simp [he]⟩)
    exact ⟨_, StoryWizardProvider.acceptCriterion_userDecisions hf ec did da ts⟩
  · intro s id did da ts h
    obtain ⟨crit, hf⟩ := hfind s.acceptanceCriteria (fun c => c.id == id)
      (by obtain ⟨c, hc, he⟩ := h; exact ⟨c, hc, by simp [he]⟩)
    exact ⟨_, StoryWizardProvider.rejectCriterion_userDecisions hf did da ts⟩
  · intro s id et did1 da1 ts1 did2 da2 ts2 h
    obtain ⟨cand, hf⟩ := hfind s.rewriteCandidates (fun c => c.id == id)
      (by obtain ⟨c, hc, he⟩ := h; exact ⟨c, hc, by simp [he]⟩)
    have hid : cand.id = id := by
      have := List.find?_some hf
      simpa using this
    have hf2 : (StoryWizardProvider.acceptRewrite s id et did1 da1 ts1).rewriteCandidates.find?
        (fun c => c.id == id) =
        some (StoryWizardProvider.applyRewriteUpdate cand
          { status := some (if jsTruthyStr et then .edited else .accepted)
            editedText := some et
            decidedAt := some da1 }) := by
      rw [StoryWizardProvider.acceptRewrite_candidates hf et did1 da1 ts1, List.find?_map]
      have hpred : ((fun c => c.id == id) ∘ fun c : StoryTypes.RewriteSuggestion =>
          if c.id = id then
            StoryWizardProvider.applyRewriteUpdate c
              { status := some (if jsTruthyStr et then .edited else .accepted)
                editedText := some et
                decidedAt := some da1 }
          else c) = fun c => c.id == id := by
        funext c
        by_cases hc : c.id = id <;>
          simp [Function.comp, hc, StoryWizardProvider.applyRewriteUpdate_id]
      rw [hpred, hf]
      simp [hid]
    refine ⟨{ id := did1
              targetType := .rewrite
              targetId := id
              decision := if jsTruthyStr et then .edited else .accepted
              originalValue := cand.suggestedText
              editedValue := et
              reason := none
              timestamp := ts1 },
            { id := did2
              targetType := .rewrite
              targetId := id
              decision := .rejected
              originalValue := (StoryWizardProvider.applyRewriteUpdate cand
                { status := some (if jsTruthyStr et then .edited else .accepted)
                  editedText := some et
                  decidedAt := some da1 }).suggestedText
              editedValue := none
              reason := none
              timestamp := ts2 }, ?_⟩
    rw [StoryWizardProvider.rejectRewrite_userDecisions hf2 did2 da2 ts2,
      StoryWizardProvider.acceptRewrite_userDecisions hf et did1 da1 ts1,
      List.append_assoc]
    rfl

/-- C7 witness: on a concrete state with one pending candidate,
acceptRewrite then rejectRewrite on that candidate's id appends exactly
two decision records to the (empty) decision list. -/
theorem decision_append_only_witness :
    ∃ d1 d2,
      (StoryWizardProvider.rejectRewrite
          (StoryWizardProvider.acceptRewrite StoryWizardProvider.sampleState "rw1"
            none "d1" "ta" "tb") "rw1" "d2" "tc" "td").userDecisions =
        StoryWizardProvider.sampleState.userDecisions ++ [d1, d2] :=
  decision_append_only.2.2.2.2 StoryWizardProvider.sampleState "rw1" none
    "d1" "ta" "tb" "d2" "tc" "td"
    ⟨StoryWizardProvider.sampleCandidate, by simp [StoryWizardProvider.sampleState], rfl⟩

/-- C8: every decision operation invoked with a target id not present in
the respective collection is a no-op — it returns the state unchanged (so
no Decision record is appended) and, being a total function, never
throws. -/
theorem decision_unknown_id_noop :
    (∀ (s : StoryWizardProvider.StoryState) (id : String) (et : Option String)
        (did da ts : String),
      (¬ ∃ c ∈ s.rewriteCandidates, c.id = id) →
      StoryWizardProvider.acceptRewrite s id et did da ts = s) ∧
    (∀ (s : StoryWizardProvider.StoryState) (id : String) (did da ts : String),
      (¬ ∃ c ∈ s.rewriteCandidates, c.id = id) →
      StoryWizardProvider.rejectRewrite s id did da ts = s) ∧
    (∀ (s : StoryWizardProvider.StoryState) (id : String)
        (ec : Option StoryTypes.CriterionEdit) (did da ts : String),
      (¬ ∃ c ∈ s.acceptanceCriteria, c.id = id) →
      StoryWizardProvider.acceptCriterion s id ec did da ts = s) ∧
    (∀ (s : StoryWizardProvider.StoryState) (id : String) (did da ts : String),
      (¬ ∃ c ∈ s.acceptanceCriteria, c.id = id) →
      StoryWizardProvider.rejectCriterion s id did da ts = s) := by
  have hnone : ∀ {α : Type} (l : List α) (p : α → Bool),
      (∀ c ∈ l, ¬ p c = true) → l.find? p = none :=
    fun l p h => List.find?_eq_none.2 h
  refine ⟨?_, ?_, ?_, ?_⟩
  · intro s id et did da ts h
    have hf : s.rewriteCandidates.find? (fun c => c.id == id) = none :=
      hnone _ _ (by
        intro c hc hp
        exact h ⟨c, hc, by simpa using hp⟩)
    simp [StoryWizardProvider.acceptRewrite, hf]
  · intro s id did da ts h
    have hf : s.rewriteCandidates.find? (fun c => c.id == id) = none :=
      hnone _ _ (by
        intro c hc hp
        exact h ⟨c, hc, by simpa using hp⟩)
    simp [StoryWizardProvider.rejectRewrite, hf]
  · intro s id ec did da ts h
    have hf : s.acceptanceCriteria.find? (fun c => c.id == id) = none :=
      hnone _ _ (by
        intro c hc hp
        exact h ⟨c, hc, by simpa using hp⟩)
    simp [StoryWizardProvider.acceptCriterion, hf]
  · intro s id did da ts h
    have hf : s.acceptanceCriteria.find? (fun c => c.id == id) = none :=
      hnone _ _ (by
        intro c hc hp
        exact h ⟨c, hc, by simpa using hp⟩)
    simp [StoryWizardProvider.rejectCriterion, hf]

/-- C8 witness: on a concrete state holding only candidate "rw1" and
criterion "ac1", every decision operation invoked with the unknown id
"zzz" returns the state unchanged. -/
theorem decision_unknown_id_noop_witness :
    StoryWizardProvider.acceptRewrite StoryWizardProvider.sampleState "zzz"
        none "d" "ta" "tb" = StoryWizardProvider.sampleState ∧
    StoryWizardProvider.rejectCriterion StoryWizardProvider.sampleState "zzz"
        "d" "ta" "tb" = StoryWizardProvider.sampleState := by
  constructor
  · exact decision_unknown_id_noop.1 StoryWizardProvider.sampleState "zzz" none
      "d" "ta" "tb" (by decide)
  · exact decision_unknown_id_noop.2.2.2 StoryWizardProvider.sampleState "zzz"
      "d" "ta" "tb" (by decide)

-- ------------------------------------------------------------
-- C9
-- ------------------------------------------------------------

/-- C9 counterexample: the claim says setting a new original story resets
every derived field including the generated export document; on a state
carrying a generated export markdown, `SET_ORIGINAL_STORY` leaves
`exportMarkdown` unchanged (its initial value is the empty string). -/
theorem set_original_story_reset_cex :
    (StoryContextProvider.storyReducer StoryContextProvider.stateWithExport
        (.SET_ORIGINAL_STORY "neue Story")).exportMarkdown =
      "# User Story Quality Report" ∧
    (StoryContextProvider.initialState "p").exportMarkdown = "" ∧
    "# User Story Quality Report" ≠ "" := by
  refine ⟨rfl, rfl, by decide⟩

/-- C9 (amended): `SET_ORIGINAL_STORY` stores the new original text and
resets exactly the optimised text, structured model, analysis issues,
analysis score, rewrite candidates, rewrite selection and acceptance
criteria (plus, in the StoryWizard provider, the pipeline stage records)
to their initial empty values; every other field — including the generated
export document, the decision log and the version history — is left
unchanged. -/
theorem set_original_story_reset (s : StoryContextProvider.StoryState)
    (s2 : StoryWizardProvider.StoryState) (t : String) :
    StoryContextProvider.storyReducer s (.SET_ORIGINAL_STORY t) =
      { s with
        originalStoryText := t
        optimisedStoryText := ""
        structuredStory := none
        analysisIssues := []
        analysisScore := none
        rewriteCandidates := []
        selectedRewriteId := none
        acceptanceCriteria := [] } ∧
    StoryWizardProvider.storyReducer s2 (.SET_ORIGINAL_STORY t) =
      { s2 with
        originalStoryText := t
        optimisedStoryText := ""
        structuredStory := none
        analysisIssues := []
        analysisScore := none
        rewriteCandidates := []
        selectedRewriteId := none
        acceptanceCriteria := []
        pipelineStages := [] } :=
  ⟨rfl, rfl⟩

-- ------------------------------------------------------------
-- C10
-- ------------------------------------------------------------

/-- C10: parsing the German example story yields the structured model with
role "Benutzer", goal "mich einloggen können", benefit "ich auf mein Konto
zugreifen kann" and no constraints (`undefined`), and the completeness
score of that structured model is 100 (role 35 + goal 40 + benefit 25). -/
theorem parse_user_story_example :
    StoryParser.parseUserStory
        "Als Benutzer möchte ich mich einloggen können, damit ich auf mein Konto zugreifen kann." =
      some { role := "Benutzer"
             goal := "mich einloggen können"
             benefit := "ich auf mein Konto zugreifen kann"
             constraints := none } ∧
    (StoryParser.parseUserStory
        "Als Benutzer möchte ich mich einloggen können, damit ich auf mein Konto zugreifen kann.").map
      StoryParser.calculateCompletenessScore = some 100 := by
  constructor <;> decide
